import Mathlib

/-!
# Scrollbar interaction of `OpenLoco/Ui/ScrollView.cpp`

A shallow embedding of the scroll view handlers (step handlers, drag-follow
handlers and the press / continue / release dispatch) together with the
properties stated about them.

Machine integers are mathematical integers; every store into a 16-bit
variable is written out as an explicit wrap (`toInt16`, `toUInt16`).
-/

namespace OpenLoco.Ui.ScrollView

/-! ## Machine integers -/

/-- Conversion of an `int` value to `int16_t` (two's complement wrap-around). -/
def toInt16 (x : Int) : Int := (x + 32768) % 65536 - 32768

/-- Conversion of an `int` value to `uint16_t`. -/
def toUInt16 (x : Int) : Int := x % 65536

/-- Conversion of an index to `uint8_t`, as in `static_cast<uint8_t>(scrollIndex)`. -/
def toUInt8 (n : Nat) : Nat := n % 256

/-- Conversion of a `size_t` product to the `uint32_t` global it is stored in. -/
def toUInt32 (n : Nat) : Nat := n % 4294967296

/-- Integer division of C++ (`/` on `int`, truncating toward zero); a zero
divisor is an error and gives `none`. -/
def divInt (a b : Int) : Option Int :=
  if b = 0 then none else some (Int.tdiv a b)

/-- The function `std::clamp(v, lo, hi)`. -/
def clamp (v lo hi : Int) : Int :=
  if v < lo then lo else if hi < v then hi else v

/-- Range of an `int16_t`. -/
def isInt16 (x : Int) : Prop := -32768 ≤ x ∧ x ≤ 32767

instance (x : Int) : Decidable (isInt16 x) := by
  unfold isInt16; infer_instance

/-! ## Data model -/

/-- Modelled from the spec: the toolkit-wide layout constants of section 3
(thumb size, bar width, button-click step); their declarations are in a header
that is not part of the sources. `sizeof_scroll_area_t` stands for
`sizeof(Ui::scroll_area_t)`. -/
structure Constants where
  thumbSize : Nat
  barWidth : Nat
  buttonClickStep : Nat
  sizeof_scroll_area_t : Nat
deriving DecidableEq, Repr

/-- Modelled from the spec: the `ScrollFlags` bit set of section 3 (two
visibility bits and the pressed indicators), one bit per indicator; the
constants are declared in a header that is not part of the sources. -/
abbrev ScrollFlags.HSCROLLBAR_VISIBLE : Nat := 1

/-- Modelled from the spec: pressed indicator of the horizontal thumb. -/
abbrev ScrollFlags.HSCROLLBAR_THUMB_PRESSED : Nat := 2

/-- Modelled from the spec: pressed indicator of the left button. -/
abbrev ScrollFlags.HSCROLLBAR_LEFT_PRESSED : Nat := 4

/-- Modelled from the spec: pressed indicator of the right button. -/
abbrev ScrollFlags.HSCROLLBAR_RIGHT_PRESSED : Nat := 8

/-- Modelled from the spec: visibility bit of the vertical scrollbar. -/
abbrev ScrollFlags.VSCROLLBAR_VISIBLE : Nat := 16

/-- Modelled from the spec: pressed indicator of the vertical thumb. -/
abbrev ScrollFlags.VSCROLLBAR_THUMB_PRESSED : Nat := 32

/-- Modelled from the spec: pressed indicator of the top button. -/
abbrev ScrollFlags.VSCROLLBAR_UP_PRESSED : Nat := 64

/-- Modelled from the spec: pressed indicator of the bottom button. -/
abbrev ScrollFlags.VSCROLLBAR_DOWN_PRESSED : Nat := 128

/-- The symbolic part under the cursor (`Ui::ScrollView::scroll_part`). -/
inductive scroll_part where
  | none
  | view
  | hscrollbar_button_left
  | hscrollbar_button_right
  | hscrollbar_track_left
  | hscrollbar_track_right
  | hscrollbar_thumb
  | vscrollbar_button_top
  | vscrollbar_button_bottom
  | vscrollbar_track_top
  | vscrollbar_track_bottom
  | vscrollbar_thumb
deriving DecidableEq, Repr

/-- Modelled from the spec: the per-widget scroll state of section 3 (content
extents, viewport offset, interaction flags). The offsets and extents are
`int16_t` values, `flags` a 16-bit bit set. -/
structure scroll_area_t where
  flags : Nat
  contentOffsetX : Int
  contentWidth : Int
  contentOffsetY : Int
  contentHeight : Int
deriving DecidableEq, Repr

/-- Modelled from the spec: a widget's pixel rectangle, reduced to the two
values the handlers read from it, the results of `width()` and `height()`
(unsigned 16-bit values). -/
structure widget_t where
  width : Nat
  height : Nat
deriving DecidableEq, Repr

/-- The part of `Ui::window` the handlers touch: its identity, its widgets and
its scroll areas (both addressed by index). -/
structure window where
  type : Nat
  number : Nat
  widgets : Nat → widget_t
  scroll_areas : Nat → scroll_area_t

/-- A two-dimensional point (`Gfx::point_t`). -/
structure point_t where
  x : Int
  y : Int
deriving DecidableEq, Repr

/-- Calls the handlers make into collaborators outside this file, in the order
they are made. -/
inductive Call where
  | updateThumbs (widgetIndex : Nat)
  | invalidateWidget (type number widgetIndex : Nat)
  | callScrollMouseDown (x y : Int) (scrollIndex : Nat)
  | callScrollMouseDrag (x y : Int) (scrollIndex : Nat)
deriving DecidableEq, Repr

/-- The state the functions of the file read and write: the window, the two
session globals, the shared last cursor position of `Input`, and the calls made
to collaborators so far. -/
structure State where
  w : window
  _currentScrollArea : scroll_part
  _currentScrollOffset : Nat
  tooltipMouseLocation : point_t
  log : List Call

/-- The registers the hit-test routine at 0x004C8EF0 hands back: `ax`, `bx`
the content-local coordinate, `cx` the part, `edx` the byte offset of the scroll
area. -/
structure registers where
  ax : Int
  bx : Int
  cx : scroll_part
  edx : Nat

/-- Collaborators whose code is not part of the sources: the hit-test routine
at 0x004C8EF0 and `WindowManager::find` (`true` when the lookup yields the
window of the state, `false` for `nullptr`). -/
structure Env where
  call_004C8EF0 : window → widget_t → Int → Int → registers
  find : Nat → Nat → Bool

/-- Replace scroll area `i` of the window. -/
def State.setArea (s : State) (i : Nat) (a : scroll_area_t) : State :=
  { s with w := { s.w with scroll_areas := Function.update s.w.scroll_areas i a } }

/-- Record a call to a collaborator. -/
def State.call (s : State) (c : Call) : State :=
  { s with log := s.log ++ [c] }

/-! ## Session index (lines 12-22) -/

/-- Source function `setCurrentScrollIndex`: the index is kept as a byte offset. -/
def setCurrentScrollIndex (c : Constants) (s : State) (index : Nat) : State :=
  { s with _currentScrollOffset := toUInt32 (index * c.sizeof_scroll_area_t) }

/-- Source function `getCurrentScrollIndex`: the index of the stored byte offset. -/
def getCurrentScrollIndex (c : Constants) (s : State) : Nat :=
  s._currentScrollOffset / c.sizeof_scroll_area_t

/-! ## Thumb refresh and invalidation -/

/-- Modelled from the spec: `updateThumbs` (section 4.5) hands the scroll area
to the routine at 0x004CA1ED, whose code is not part of the sources; it
recomputes thumb geometry only, so offsets, extents and flags stay as they
are and the call is recorded. -/
def updateThumbs (s : State) (widgetIndex : Nat) : State :=
  s.call (Call.updateThumbs widgetIndex)

/-- Source function `WindowManager::invalidateWidget`: a redraw request, recorded. -/
def invalidateWidget (s : State) (type number widgetIndex : Nat) : State :=
  s.call (Call.invalidateWidget type number widgetIndex)

/-! ## Drag-follow handlers (lines 26-173) -/

/-- Source function `horizontalFollow` (0x004C87E1). -/
def horizontalFollow (c : Constants) (s : State) (widget : widget_t)
    (widgetIndex scrollIndex : Nat) (deltaX : Int) : Option State :=
  let a := s.w.scroll_areas scrollIndex
  let a := { a with flags := a.flags ||| ScrollFlags.HSCROLLBAR_THUMB_PRESSED }
  let s := s.setArea scrollIndex a
  let trackWidth := toUInt16 ((widget.width : Int) - 2 - c.thumbSize - c.thumbSize)
  let trackWidth :=
    if a.flags &&& ScrollFlags.VSCROLLBAR_VISIBLE ≠ 0 then toUInt16 (trackWidth - c.barWidth)
    else trackWidth
  if trackWidth = 0 then some s
  else
    (divInt (deltaX * a.contentWidth) trackWidth).map fun contentDeltaX =>
      let newOffset := toInt16 (a.contentOffsetX + contentDeltaX)
      let frameWidth : Int := (widget.width : Int) - 2
      let frameWidth :=
        if a.flags &&& ScrollFlags.VSCROLLBAR_VISIBLE ≠ 0 then frameWidth - c.barWidth
        else frameWidth
      let maxOffset := toInt16 (a.contentWidth - frameWidth)
      let maxOffset := max maxOffset 0
      let a := { a with contentOffsetX := clamp newOffset 0 maxOffset }
      let s := s.setArea scrollIndex a
      let s := updateThumbs s widgetIndex
      invalidateWidget s s.w.type s.w.number widgetIndex

/-- Source function `verticalFollow` (0x004C8898). -/
def verticalFollow (c : Constants) (s : State) (widget : widget_t)
    (widgetIndex scrollIndex : Nat) (deltaY : Int) : Option State :=
  let a := s.w.scroll_areas scrollIndex
  let a := { a with flags := a.flags ||| ScrollFlags.VSCROLLBAR_THUMB_PRESSED }
  let s := s.setArea scrollIndex a
  let trackHeight := toUInt16 ((widget.height : Int) - 2 - c.thumbSize - c.thumbSize)
  let trackHeight :=
    if a.flags &&& ScrollFlags.HSCROLLBAR_VISIBLE ≠ 0 then toUInt16 (trackHeight - c.barWidth)
    else trackHeight
  if trackHeight = 0 then some s
  else
    (divInt (deltaY * a.contentHeight) trackHeight).map fun contentDeltaY =>
      let newOffset := toInt16 (a.contentOffsetY + contentDeltaY)
      let frameHeight : Int := (widget.height : Int) - 2
      let frameHeight :=
        if a.flags &&& ScrollFlags.HSCROLLBAR_VISIBLE ≠ 0 then frameHeight - c.barWidth
        else frameHeight
      let maxOffset := toInt16 (a.contentHeight - frameHeight)
      let maxOffset := max maxOffset 0
      let a := { a with contentOffsetY := clamp newOffset 0 maxOffset }
      let s := s.setArea scrollIndex a
      let s := updateThumbs s widgetIndex
      invalidateWidget s s.w.type s.w.number widgetIndex

/-- Source function `horizontalDragFollow` (0x004C8CFD). -/
def horizontalDragFollow (c : Constants) (s : State) (widget : widget_t)
    (dragWidgetIndex dragScrollIndex : Nat) (deltaX : Int) : Option State :=
  let a := s.w.scroll_areas dragScrollIndex
  if a.flags &&& ScrollFlags.HSCROLLBAR_VISIBLE = 0 then some s
  else
    let trackWidth := toUInt16 ((widget.width : Int) - 2 - c.thumbSize - c.thumbSize)
    let trackWidth :=
      if a.flags &&& ScrollFlags.VSCROLLBAR_VISIBLE ≠ 0 then toUInt16 (trackWidth - c.barWidth)
      else trackWidth
    if trackWidth = 0 then some s
    else
      (divInt (deltaX * a.contentWidth) trackWidth).map fun contentDeltaX =>
        let newOffset := toInt16 (a.contentOffsetX + contentDeltaX)
        let frameWidth : Int := (widget.width : Int) - 2
        let frameWidth :=
          if a.flags &&& ScrollFlags.VSCROLLBAR_VISIBLE ≠ 0 then frameWidth - c.barWidth
          else frameWidth
        let maxOffset := toInt16 (a.contentWidth - frameWidth)
        let maxOffset := max maxOffset 0
        let a := { a with contentOffsetX := clamp newOffset 0 maxOffset }
        let s := s.setArea dragScrollIndex a
        let s := updateThumbs s dragWidgetIndex
        invalidateWidget s s.w.type s.w.number dragWidgetIndex

/-- Source function `verticalDragFollow` (0x004C8E2E). -/
def verticalDragFollow (c : Constants) (s : State) (widget : widget_t)
    (dragWidgetIndex dragScrollIndex : Nat) (deltaY : Int) : Option State :=
  let a := s.w.scroll_areas dragScrollIndex
  if a.flags &&& ScrollFlags.VSCROLLBAR_VISIBLE = 0 then some s
  else
    let trackHeight := toUInt16 ((widget.height : Int) - 2 - c.thumbSize - c.thumbSize)
    let trackHeight :=
      if a.flags &&& ScrollFlags.HSCROLLBAR_VISIBLE ≠ 0 then toUInt16 (trackHeight - c.barWidth)
      else trackHeight
    if trackHeight = 0 then some s
    else
      (divInt (deltaY * a.contentHeight) trackHeight).map fun contentDeltaY =>
        let newOffset := toInt16 (a.contentOffsetY + contentDeltaY)
        let frameHeight : Int := (widget.height : Int) - 2
        let frameHeight :=
          if a.flags &&& ScrollFlags.HSCROLLBAR_VISIBLE ≠ 0 then frameHeight - c.barWidth
          else frameHeight
        let maxOffset := toInt16 (a.contentHeight - frameHeight)
        let maxOffset := max maxOffset 0
        let a := { a with contentOffsetY := clamp newOffset 0 maxOffset }
        let s := s.setArea dragScrollIndex a
        let s := updateThumbs s dragWidgetIndex
        invalidateWidget s s.w.type s.w.number dragWidgetIndex

/-! ## Hit test (lines 177-199) -/

/-- The outputs of `getPart`. -/
structure PartResult where
  output_x : Int
  output_y : Int
  output_scroll_area : scroll_part
  scrollIndex : Nat

/-- Source function `getPart` (0x004C8EF0): runs the hit-test routine and turns the byte
offset it returns into an index. -/
def getPart (c : Constants) (env : Env) (w : window) (widget : widget_t) (x y : Int) :
    PartResult :=
  let regs := env.call_004C8EF0 w widget x y
  { output_x := regs.ax
    output_y := regs.bx
    output_scroll_area := regs.cx
    scrollIndex := regs.edx / c.sizeof_scroll_area_t }

/-! ## Step handlers (lines 213-322) -/

/-- Source function `hButtonLeft` (0x004C894F). -/
def hButtonLeft (c : Constants) (s : State) (scrollAreaIndex widgetIndex : Nat) : State :=
  let a := s.w.scroll_areas scrollAreaIndex
  let a := { a with flags := a.flags ||| ScrollFlags.HSCROLLBAR_LEFT_PRESSED }
  let a := { a with contentOffsetX := toInt16 (max (a.contentOffsetX - c.buttonClickStep) 0) }
  let s := s.setArea scrollAreaIndex a
  let s := updateThumbs s widgetIndex
  invalidateWidget s s.w.type s.w.number widgetIndex

/-- Source function `hButtonRight` (0x004C89AE). -/
def hButtonRight (c : Constants) (s : State) (scrollAreaIndex widgetIndex : Nat) : State :=
  let a := s.w.scroll_areas scrollAreaIndex
  let a := { a with flags := a.flags ||| ScrollFlags.HSCROLLBAR_RIGHT_PRESSED }
  let trackWidth := toInt16 (((s.w.widgets widgetIndex).width : Int) - 2)
  let trackWidth :=
    if a.flags &&& ScrollFlags.VSCROLLBAR_VISIBLE ≠ 0 then toInt16 (trackWidth - c.barWidth)
    else trackWidth
  let widgetContentWidth := toInt16 (max (a.contentWidth - trackWidth) 0)
  let a := { a with
    contentOffsetX := min (toInt16 (a.contentOffsetX + c.buttonClickStep)) widgetContentWidth }
  let s := s.setArea scrollAreaIndex a
  let s := updateThumbs s widgetIndex
  invalidateWidget s s.w.type s.w.number widgetIndex

/-- Source function `hTrackLeft` (0x004C8A36). -/
def hTrackLeft (c : Constants) (s : State) (scrollAreaIndex widgetIndex : Nat) : State :=
  let a := s.w.scroll_areas scrollAreaIndex
  let trackWidth := toInt16 (((s.w.widgets widgetIndex).width : Int) - 2)
  let trackWidth :=
    if a.flags &&& ScrollFlags.VSCROLLBAR_VISIBLE ≠ 0 then toInt16 (trackWidth - c.barWidth)
    else trackWidth
  let a := { a with contentOffsetX := toInt16 (max (a.contentOffsetX - trackWidth) 0) }
  let s := s.setArea scrollAreaIndex a
  let s := updateThumbs s widgetIndex
  invalidateWidget s s.w.type s.w.number widgetIndex

/-- Source function `hTrackRight` (0x004C8AA6). -/
def hTrackRight (c : Constants) (s : State) (scrollAreaIndex widgetIndex : Nat) : State :=
  let a := s.w.scroll_areas scrollAreaIndex
  let trackWidth := toInt16 (((s.w.widgets widgetIndex).width : Int) - 2)
  let trackWidth :=
    if a.flags &&& ScrollFlags.VSCROLLBAR_VISIBLE ≠ 0 then toInt16 (trackWidth - c.barWidth)
    else trackWidth
  let widgetContentWidth := toInt16 (max (a.contentWidth - trackWidth) 0)
  let a := { a with
    contentOffsetX := min (toInt16 (a.contentOffsetX + trackWidth)) widgetContentWidth }
  let s := s.setArea scrollAreaIndex a
  let s := updateThumbs s widgetIndex
  invalidateWidget s s.w.type s.w.number widgetIndex

/-- Source function `verticalNudgeUp`. -/
def verticalNudgeUp (c : Constants) (s : State) (scrollAreaIndex widgetIndex : Nat) : State :=
  let a := s.w.scroll_areas scrollAreaIndex
  let a := { a with contentOffsetY := toInt16 (max (a.contentOffsetY - c.buttonClickStep) 0) }
  let s := s.setArea scrollAreaIndex a
  let s := updateThumbs s widgetIndex
  invalidateWidget s s.w.type s.w.number widgetIndex

/-- Source function `vButtonTop` (0x004C8B26). -/
def vButtonTop (c : Constants) (s : State) (scrollAreaIndex widgetIndex : Nat) : State :=
  let a := s.w.scroll_areas scrollAreaIndex
  let a := { a with flags := a.flags ||| ScrollFlags.VSCROLLBAR_UP_PRESSED }
  let s := s.setArea scrollAreaIndex a
  verticalNudgeUp c s scrollAreaIndex widgetIndex

/-- Source function `verticalNudgeDown`. -/
def verticalNudgeDown (c : Constants) (s : State) (scrollAreaIndex widgetIndex : Nat) : State :=
  let a := s.w.scroll_areas scrollAreaIndex
  let trackHeight := toInt16 (((s.w.widgets widgetIndex).height : Int) - 2)
  let trackHeight :=
    if a.flags &&& ScrollFlags.HSCROLLBAR_VISIBLE ≠ 0 then toInt16 (trackHeight - c.barWidth)
    else trackHeight
  let widgetContentHeight := toInt16 (max (a.contentHeight - trackHeight) 0)
  let a := { a with
    contentOffsetY := min (toInt16 (a.contentOffsetY + c.buttonClickStep)) widgetContentHeight }
  let s := s.setArea scrollAreaIndex a
  let s := updateThumbs s widgetIndex
  invalidateWidget s s.w.type s.w.number widgetIndex

/-- Source function `vButtonBottom` (0x004C8B85). -/
def vButtonBottom (c : Constants) (s : State) (scrollAreaIndex widgetIndex : Nat) : State :=
  let a := s.w.scroll_areas scrollAreaIndex
  let a := { a with flags := a.flags ||| ScrollFlags.VSCROLLBAR_DOWN_PRESSED }
  let s := s.setArea scrollAreaIndex a
  verticalNudgeDown c s scrollAreaIndex widgetIndex

/-- Source function `vTrackTop` (0x004C8C0D). -/
def vTrackTop (c : Constants) (s : State) (scrollAreaIndex widgetIndex : Nat) : State :=
  let a := s.w.scroll_areas scrollAreaIndex
  let trackHeight := toInt16 (((s.w.widgets widgetIndex).height : Int) - 2)
  let trackHeight :=
    if a.flags &&& ScrollFlags.HSCROLLBAR_VISIBLE ≠ 0 then toInt16 (trackHeight - c.barWidth)
    else trackHeight
  let a := { a with contentOffsetY := toInt16 (max (a.contentOffsetY - trackHeight) 0) }
  let s := s.setArea scrollAreaIndex a
  let s := updateThumbs s widgetIndex
  invalidateWidget s s.w.type s.w.number widgetIndex

/-- Source function `vTrackBottom` (0x004C8C7D). -/
def vTrackBottom (c : Constants) (s : State) (scrollAreaIndex widgetIndex : Nat) : State :=
  let a := s.w.scroll_areas scrollAreaIndex
  let trackHeight := toInt16 (((s.w.widgets widgetIndex).height : Int) - 2)
  let trackHeight :=
    if a.flags &&& ScrollFlags.HSCROLLBAR_VISIBLE ≠ 0 then toInt16 (trackHeight - c.barWidth)
    else trackHeight
  let widgetContentHeight := toInt16 (max (a.contentHeight - trackHeight) 0)
  let a := { a with
    contentOffsetY := min (toInt16 (a.contentOffsetY + trackHeight)) widgetContentHeight }
  let s := s.setArea scrollAreaIndex a
  let s := updateThumbs s widgetIndex
  invalidateWidget s s.w.type s.w.number widgetIndex

/-! ## Press, release and continue (lines 325-467) -/

/-- Source function `scrollLeftBegin` (0x004C8689). -/
def scrollLeftBegin (c : Constants) (env : Env) (x y : Int) (s : State) (widget : widget_t)
    (widgetIndex : Nat) : State :=
  let r := getPart c env s.w widget x y
  let scrollArea := r.output_scroll_area
  let scrollIndex := r.scrollIndex
  let s := { s with _currentScrollArea := scrollArea }
  let s := setCurrentScrollIndex c s scrollIndex
  match scrollArea with
  | scroll_part.view =>
      s.call (Call.callScrollMouseDown r.output_x r.output_y (toUInt8 scrollIndex))
  | scroll_part.hscrollbar_button_left => hButtonLeft c s scrollIndex widgetIndex
  | scroll_part.hscrollbar_button_right => hButtonRight c s scrollIndex widgetIndex
  | scroll_part.hscrollbar_track_left => hTrackLeft c s scrollIndex widgetIndex
  | scroll_part.hscrollbar_track_right => hTrackRight c s scrollIndex widgetIndex
  | scroll_part.vscrollbar_button_top => vButtonTop c s scrollIndex widgetIndex
  | scroll_part.vscrollbar_button_bottom => vButtonBottom c s scrollIndex widgetIndex
  | scroll_part.vscrollbar_track_top => vTrackTop c s scrollIndex widgetIndex
  | scroll_part.vscrollbar_track_bottom => vTrackBottom c s scrollIndex widgetIndex
  | _ => s

/-- Source function `scrollModalRight` (based on 0x004C8689). -/
def scrollModalRight (c : Constants) (env : Env) (x y : Int) (s : State) (widget : widget_t)
    (_widgetIndex : Nat) : State :=
  let r := getPart c env s.w widget x y
  let scrollArea := r.output_scroll_area
  let scrollIndex := r.scrollIndex
  let s := { s with _currentScrollArea := scrollArea }
  let s := setCurrentScrollIndex c s scrollIndex
  if scrollArea = scroll_part.view then
    s.call (Call.callScrollMouseDown r.output_x r.output_y (toUInt8 scrollIndex))
  else s

/-- The mask `horizontalFlags` of `clearPressedButtons`. -/
def horizontalFlags : Nat :=
  ScrollFlags.HSCROLLBAR_THUMB_PRESSED ||| ScrollFlags.HSCROLLBAR_LEFT_PRESSED
    ||| ScrollFlags.HSCROLLBAR_RIGHT_PRESSED

/-- The mask `verticalFlags` of `clearPressedButtons`. -/
def verticalFlags : Nat :=
  ScrollFlags.VSCROLLBAR_THUMB_PRESSED ||| ScrollFlags.VSCROLLBAR_UP_PRESSED
    ||| ScrollFlags.VSCROLLBAR_DOWN_PRESSED

/-- The statement `flags &= ~mask` on a `uint16_t`: the complement taken within
the 16 bits of the flag word. -/
def clearMask16 (flags mask : Nat) : Nat := flags &&& (65535 ^^^ mask)

/-- Source function `clearPressedButtons` (0x004C72ED). -/
def clearPressedButtons (c : Constants) (env : Env) (s : State) (type number widgetIndex : Nat) :
    State :=
  if env.find type number = false then s
  else
    let scrollAreaIndex := getCurrentScrollIndex c s
    let a := s.w.scroll_areas scrollAreaIndex
    let a := { a with flags := clearMask16 a.flags (verticalFlags ||| horizontalFlags) }
    let s := s.setArea scrollAreaIndex a
    invalidateWidget s type number widgetIndex

/-- Source function `scrollLeftContinue` (0x004C7236). -/
def scrollLeftContinue (c : Constants) (env : Env) (x y : Int) (s : State) (widget : widget_t)
    (widgetIndex : Nat) : Option State :=
  let scrollIndex := getCurrentScrollIndex c s
  if s._currentScrollArea = scroll_part.hscrollbar_thumb then
    let toolTipLoc := s.tooltipMouseLocation
    let deltaX := toInt16 (x - toolTipLoc.x)
    let toolTipLoc := { toolTipLoc with x := x }
    let s := { s with tooltipMouseLocation := toolTipLoc }
    horizontalFollow c s widget widgetIndex scrollIndex deltaX
  else if s._currentScrollArea = scroll_part.vscrollbar_thumb then
    let toolTipLoc := s.tooltipMouseLocation
    let deltaY := toInt16 (y - toolTipLoc.y)
    let toolTipLoc := { toolTipLoc with y := y }
    let s := { s with tooltipMouseLocation := toolTipLoc }
    verticalFollow c s widget widgetIndex scrollIndex deltaY
  else
    let r := getPart c env s.w widget x y
    let scrollArea := r.output_scroll_area
    let scrollIndex := r.scrollIndex
    if scrollArea ≠ s._currentScrollArea then
      some (clearPressedButtons c env s s.w.type s.w.number widgetIndex)
    else
      match scrollArea with
      | scroll_part.view =>
          some (s.call (Call.callScrollMouseDrag r.output_x r.output_y (toUInt8 scrollIndex)))
      | scroll_part.hscrollbar_button_left => some (hButtonLeft c s scrollIndex widgetIndex)
      | scroll_part.hscrollbar_button_right => some (hButtonRight c s scrollIndex widgetIndex)
      | scroll_part.hscrollbar_track_left => some s
      | scroll_part.hscrollbar_track_right => some s
      | scroll_part.vscrollbar_button_top => some (vButtonTop c s scrollIndex widgetIndex)
      | scroll_part.vscrollbar_button_bottom => some (vButtonBottom c s scrollIndex widgetIndex)
      | scroll_part.vscrollbar_track_top => some s
      | scroll_part.vscrollbar_track_bottom => some s
      | _ => some s

/-! ## Quantities of the specification -/

/-- Visible track width of section 4.2: widget width minus border minus the bar
width when the vertical bar is visible. -/
def visibleTrackWidth (c : Constants) (widget : widget_t) (a : scroll_area_t) : Int :=
  (widget.width : Int) - 2 -
    (if a.flags &&& ScrollFlags.VSCROLLBAR_VISIBLE ≠ 0 then (c.barWidth : Int) else 0)

/-- Visible track height: widget height minus border minus the bar width when
the horizontal bar is visible. -/
def visibleTrackHeight (c : Constants) (widget : widget_t) (a : scroll_area_t) : Int :=
  (widget.height : Int) - 2 -
    (if a.flags &&& ScrollFlags.HSCROLLBAR_VISIBLE ≠ 0 then (c.barWidth : Int) else 0)

/-- Usable track width of section 4.3: widget width minus border, minus both
button caps, minus the bar width when the vertical bar is visible. -/
def usableTrackWidth (c : Constants) (widget : widget_t) (a : scroll_area_t) : Int :=
  (widget.width : Int) - 2 - 2 * c.thumbSize -
    (if a.flags &&& ScrollFlags.VSCROLLBAR_VISIBLE ≠ 0 then (c.barWidth : Int) else 0)

/-- Usable track height: widget height minus border, minus both button caps,
minus the bar width when the horizontal bar is visible. -/
def usableTrackHeight (c : Constants) (widget : widget_t) (a : scroll_area_t) : Int :=
  (widget.height : Int) - 2 - 2 * c.thumbSize -
    (if a.flags &&& ScrollFlags.HSCROLLBAR_VISIBLE ≠ 0 then (c.barWidth : Int) else 0)

/-- Largest valid horizontal offset, `max(0, contentWidth - visibleTrackWidth)`. -/
def maxOffsetX (c : Constants) (widget : widget_t) (a : scroll_area_t) : Int :=
  max 0 (a.contentWidth - visibleTrackWidth c widget a)

/-- Largest valid vertical offset, `max(0, contentHeight - visibleTrackHeight)`. -/
def maxOffsetY (c : Constants) (widget : widget_t) (a : scroll_area_t) : Int :=
  max 0 (a.contentHeight - visibleTrackHeight c widget a)

/-- The offset invariant of section 3 on the X axis. -/
def offsetXInRange (c : Constants) (widget : widget_t) (a : scroll_area_t) : Prop :=
  0 ≤ a.contentOffsetX ∧ a.contentOffsetX ≤ maxOffsetX c widget a

/-- The offset invariant of section 3 on the Y axis. -/
def offsetYInRange (c : Constants) (widget : widget_t) (a : scroll_area_t) : Prop :=
  0 ≤ a.contentOffsetY ∧ a.contentOffsetY ≤ maxOffsetY c widget a

instance (c : Constants) (widget : widget_t) (a : scroll_area_t) :
    Decidable (offsetXInRange c widget a) := by
  unfold offsetXInRange; infer_instance

instance (c : Constants) (widget : widget_t) (a : scroll_area_t) :
    Decidable (offsetYInRange c widget a) := by
  unfold offsetYInRange; infer_instance

/-- The X invariant for scroll area `i` of the state under widget `wi`. -/
def State.xInRange (s : State) (c : Constants) (i wi : Nat) : Prop :=
  offsetXInRange c (s.w.widgets wi) (s.w.scroll_areas i)

/-- The Y invariant for scroll area `i` of the state under widget `wi`. -/
def State.yInRange (s : State) (c : Constants) (i wi : Nat) : Prop :=
  offsetYInRange c (s.w.widgets wi) (s.w.scroll_areas i)

instance (s : State) (c : Constants) (i wi : Nat) : Decidable (s.xInRange c i wi) := by
  unfold State.xInRange; infer_instance

instance (s : State) (c : Constants) (i wi : Nat) : Decidable (s.yInRange c i wi) := by
  unfold State.yInRange; infer_instance

/-- Both offsets of every scroll area are the same in `s'` as in `s`. -/
def sameOffsets (s s' : State) : Prop :=
  ∀ j, (s'.w.scroll_areas j).contentOffsetX = (s.w.scroll_areas j).contentOffsetX ∧
    (s'.w.scroll_areas j).contentOffsetY = (s.w.scroll_areas j).contentOffsetY

/-- All six pressed indicators of the flag word are clear. -/
def noPressedFlag (flags : Nat) : Prop :=
  flags &&& ScrollFlags.HSCROLLBAR_THUMB_PRESSED = 0 ∧
  flags &&& ScrollFlags.HSCROLLBAR_LEFT_PRESSED = 0 ∧
  flags &&& ScrollFlags.HSCROLLBAR_RIGHT_PRESSED = 0 ∧
  flags &&& ScrollFlags.VSCROLLBAR_THUMB_PRESSED = 0 ∧
  flags &&& ScrollFlags.VSCROLLBAR_UP_PRESSED = 0 ∧
  flags &&& ScrollFlags.VSCROLLBAR_DOWN_PRESSED = 0

instance (flags : Nat) : Decidable (noPressedFlag flags) := by
  unfold noPressedFlag; infer_instance

/-- The six pressed indicators as one mask, the operand of `flags &= ~(...)` in
`clearPressedButtons`. -/
def pressedMask : Nat := verticalFlags ||| horizontalFlags

/-- The flag word `f'` is `f` with the indicator `bit` set and no other bit
changed. -/
def onlyFlagSet (f f' bit : Nat) : Prop :=
  f' &&& bit = bit ∧ ∀ k, Nat.testBit bit k = false → Nat.testBit f' k = Nat.testBit f k

/-- Frame of a horizontal step on scroll area `i`: content sizes and
`contentOffsetY` of that area, and every other scroll area, are the same in `s'`
as in `s`. -/
def horizontalStepFrame (s s' : State) (i : Nat) : Prop :=
  (s'.w.scroll_areas i).contentWidth = (s.w.scroll_areas i).contentWidth ∧
  (s'.w.scroll_areas i).contentHeight = (s.w.scroll_areas i).contentHeight ∧
  (s'.w.scroll_areas i).contentOffsetY = (s.w.scroll_areas i).contentOffsetY ∧
  ∀ j, j ≠ i → s'.w.scroll_areas j = s.w.scroll_areas j

/-- Frame of a vertical step on scroll area `i`: content sizes and
`contentOffsetX` of that area, and every other scroll area, are the same in `s'`
as in `s`. -/
def verticalStepFrame (s s' : State) (i : Nat) : Prop :=
  (s'.w.scroll_areas i).contentWidth = (s.w.scroll_areas i).contentWidth ∧
  (s'.w.scroll_areas i).contentHeight = (s.w.scroll_areas i).contentHeight ∧
  (s'.w.scroll_areas i).contentOffsetX = (s.w.scroll_areas i).contentOffsetX ∧
  ∀ j, j ≠ i → s'.w.scroll_areas j = s.w.scroll_areas j

/-! ## Locals of the handlers -/

/-- The `int16_t` local `trackWidth` of the horizontal step handlers. -/
def stepTrackWidth (c : Constants) (widget : widget_t) (flags : Nat) : Int :=
  if flags &&& ScrollFlags.VSCROLLBAR_VISIBLE ≠ 0 then
    toInt16 (toInt16 ((widget.width : Int) - 2) - c.barWidth)
  else toInt16 ((widget.width : Int) - 2)

/-- The `int16_t` local `trackHeight` of the vertical step handlers. -/
def stepTrackHeight (c : Constants) (widget : widget_t) (flags : Nat) : Int :=
  if flags &&& ScrollFlags.HSCROLLBAR_VISIBLE ≠ 0 then
    toInt16 (toInt16 ((widget.height : Int) - 2) - c.barWidth)
  else toInt16 ((widget.height : Int) - 2)

/-- The `uint16_t` local `trackWidth` of the horizontal drag-follow handlers. -/
def followTrackWidth (c : Constants) (widget : widget_t) (flags : Nat) : Int :=
  if flags &&& ScrollFlags.VSCROLLBAR_VISIBLE ≠ 0 then
    toUInt16 (toUInt16 ((widget.width : Int) - 2 - c.thumbSize - c.thumbSize) - c.barWidth)
  else toUInt16 ((widget.width : Int) - 2 - c.thumbSize - c.thumbSize)

/-- The `uint16_t` local `trackHeight` of the vertical drag-follow handlers. -/
def followTrackHeight (c : Constants) (widget : widget_t) (flags : Nat) : Int :=
  if flags &&& ScrollFlags.HSCROLLBAR_VISIBLE ≠ 0 then
    toUInt16 (toUInt16 ((widget.height : Int) - 2 - c.thumbSize - c.thumbSize) - c.barWidth)
  else toUInt16 ((widget.height : Int) - 2 - c.thumbSize - c.thumbSize)

/-- The offset the horizontal drag-follow handlers store when the track is not
empty. -/
def followOffsetX (c : Constants) (widget : widget_t) (a : scroll_area_t) (deltaX : Int) : Int :=
  clamp
    (toInt16 (a.contentOffsetX +
      Int.tdiv (deltaX * a.contentWidth) (followTrackWidth c widget a.flags)))
    0 (max (toInt16 (a.contentWidth - visibleTrackWidth c widget a)) 0)

/-- The offset the vertical drag-follow handlers store when the track is not
empty. -/
def followOffsetY (c : Constants) (widget : widget_t) (a : scroll_area_t) (deltaY : Int) : Int :=
  clamp
    (toInt16 (a.contentOffsetY +
      Int.tdiv (deltaY * a.contentHeight) (followTrackHeight c widget a.flags)))
    0 (max (toInt16 (a.contentHeight - visibleTrackHeight c widget a)) 0)

/-! ## Example inputs -/

/-- Layout constants of the worked examples: thumb size 10, bar width 11,
button-click step 10, scroll areas of 18 bytes. -/
def exampleConstants : Constants :=
  { thumbSize := 10, barWidth := 11, buttonClickStep := 10, sizeof_scroll_area_t := 18 }

/-- A window (type 0, number 0) in which every widget is `widget` and every
scroll area is `a`, with no engaged part, the last cursor position at the
origin and no call made yet. -/
def mkState (widget : widget_t) (a : scroll_area_t) : State :=
  { w := { type := 0, number := 0, widgets := fun _ => widget, scroll_areas := fun _ => a }
    _currentScrollArea := scroll_part.none
    _currentScrollOffset := 0
    tooltipMouseLocation := { x := 0, y := 0 }
    log := [] }

/-- The state `mkState widget a` with an engaged session: part `part`, stored
byte offset `offset`. -/
def mkEngaged (widget : widget_t) (a : scroll_area_t) (part : scroll_part) (offset : Nat) :
    State :=
  { mkState widget a with _currentScrollArea := part, _currentScrollOffset := offset }

/-- Collaborators of the worked examples: a hit test that always answers `r`
and a window lookup that always succeeds. -/
def exampleEnv (r : registers) : Env :=
  { call_004C8EF0 := fun _ _ _ _ => r, find := fun _ _ => true }

/-- Scroll area `i` of the state lies under a 200 by 200 widget (index 0), has
no vertical bar and content width 1000, and its `contentOffsetX` is in
`[0, cap]` and is a multiple of `step` or equal to `cap`. -/
def State.stepsFrom (s : State) (i : Nat) (step cap : Int) : Prop :=
  s.w.widgets 0 = ⟨200, 200⟩ ∧
  (s.w.scroll_areas i).flags &&& ScrollFlags.VSCROLLBAR_VISIBLE = 0 ∧
  (s.w.scroll_areas i).contentWidth = 1000 ∧
  0 ≤ (s.w.scroll_areas i).contentOffsetX ∧
  (s.w.scroll_areas i).contentOffsetX ≤ cap ∧
  ((s.w.scroll_areas i).contentOffsetX % step = 0 ∨ (s.w.scroll_areas i).contentOffsetX = cap)

/-- Collaborators of the session examples: the hit test answers
`hscrollbar-button-left` (scroll area 0) left of x = 100 and `view` elsewhere;
the window lookup always succeeds. -/
def exampleEnvByX : Env :=
  { call_004C8EF0 := fun _ _ x _ =>
      if x < 100 then ⟨0, 0, scroll_part.hscrollbar_button_left, 0⟩
      else ⟨0, 0, scroll_part.view, 0⟩
    find := fun _ _ => true }

/-! ## Lemmas -/

theorem or_and_of_disjoint (f p v : Nat) (h : p &&& v = 0) : (f ||| p) &&& v = f &&& v := by
  rw [Nat.and_distrib_right, h, Nat.or_zero]

/-! ### The scroll area after each step handler -/

theorem hButtonLeft_area (c : Constants) (s : State) (i wi : Nat) :
    (hButtonLeft c s i wi).w.scroll_areas i =
      { s.w.scroll_areas i with
        flags := (s.w.scroll_areas i).flags ||| ScrollFlags.HSCROLLBAR_LEFT_PRESSED
        contentOffsetX :=
          toInt16 (max ((s.w.scroll_areas i).contentOffsetX - c.buttonClickStep) 0) } := by
  simp [hButtonLeft, State.setArea, updateThumbs, invalidateWidget, State.call]

theorem hButtonRight_area (c : Constants) (s : State) (i wi : Nat) :
    (hButtonRight c s i wi).w.scroll_areas i =
      { s.w.scroll_areas i with
        flags := (s.w.scroll_areas i).flags ||| ScrollFlags.HSCROLLBAR_RIGHT_PRESSED
        contentOffsetX :=
          min (toInt16 ((s.w.scroll_areas i).contentOffsetX + c.buttonClickStep))
            (toInt16 (max ((s.w.scroll_areas i).contentWidth -
              stepTrackWidth c (s.w.widgets wi) (s.w.scroll_areas i).flags) 0)) } := by
  simp [hButtonRight, State.setArea, updateThumbs, invalidateWidget, State.call, stepTrackWidth,
    or_and_of_disjoint _ 8 16 (by decide)]

theorem hTrackLeft_area (c : Constants) (s : State) (i wi : Nat) :
    (hTrackLeft c s i wi).w.scroll_areas i =
      { s.w.scroll_areas i with
        contentOffsetX :=
          toInt16 (max ((s.w.scroll_areas i).contentOffsetX -
            stepTrackWidth c (s.w.widgets wi) (s.w.scroll_areas i).flags) 0) } := by
  simp [hTrackLeft, State.setArea, updateThumbs, invalidateWidget, State.call, stepTrackWidth]

theorem hTrackRight_area (c : Constants) (s : State) (i wi : Nat) :
    (hTrackRight c s i wi).w.scroll_areas i =
      { s.w.scroll_areas i with
        contentOffsetX :=
          min (toInt16 ((s.w.scroll_areas i).contentOffsetX +
              stepTrackWidth c (s.w.widgets wi) (s.w.scroll_areas i).flags))
            (toInt16 (max ((s.w.scroll_areas i).contentWidth -
              stepTrackWidth c (s.w.widgets wi) (s.w.scroll_areas i).flags) 0)) } := by
  simp [hTrackRight, State.setArea, updateThumbs, invalidateWidget, State.call, stepTrackWidth]

theorem vButtonTop_area (c : Constants) (s : State) (i wi : Nat) :
    (vButtonTop c s i wi).w.scroll_areas i =
      { s.w.scroll_areas i with
        flags := (s.w.scroll_areas i).flags ||| ScrollFlags.VSCROLLBAR_UP_PRESSED
        contentOffsetY :=
          toInt16 (max ((s.w.scroll_areas i).contentOffsetY - c.buttonClickStep) 0) } := by
  simp [vButtonTop, verticalNudgeUp, State.setArea, updateThumbs, invalidateWidget, State.call]

theorem vButtonBottom_area (c : Constants) (s : State) (i wi : Nat) :
    (vButtonBottom c s i wi).w.scroll_areas i =
      { s.w.scroll_areas i with
        flags := (s.w.scroll_areas i).flags ||| ScrollFlags.VSCROLLBAR_DOWN_PRESSED
        contentOffsetY :=
          min (toInt16 ((s.w.scroll_areas i).contentOffsetY + c.buttonClickStep))
            (toInt16 (max ((s.w.scroll_areas i).contentHeight -
              stepTrackHeight c (s.w.widgets wi) (s.w.scroll_areas i).flags) 0)) } := by
  simp [vButtonBottom, verticalNudgeDown, State.setArea, updateThumbs, invalidateWidget,
    State.call, stepTrackHeight, or_and_of_disjoint _ 128 1 (by decide)]

theorem vTrackTop_area (c : Constants) (s : State) (i wi : Nat) :
    (vTrackTop c s i wi).w.scroll_areas i =
      { s.w.scroll_areas i with
        contentOffsetY :=
          toInt16 (max ((s.w.scroll_areas i).contentOffsetY -
            stepTrackHeight c (s.w.widgets wi) (s.w.scroll_areas i).flags) 0) } := by
  simp [vTrackTop, State.setArea, updateThumbs, invalidateWidget, State.call, stepTrackHeight]

theorem vTrackBottom_area (c : Constants) (s : State) (i wi : Nat) :
    (vTrackBottom c s i wi).w.scroll_areas i =
      { s.w.scroll_areas i with
        contentOffsetY :=
          min (toInt16 ((s.w.scroll_areas i).contentOffsetY +
              stepTrackHeight c (s.w.widgets wi) (s.w.scroll_areas i).flags))
            (toInt16 (max ((s.w.scroll_areas i).contentHeight -
              stepTrackHeight c (s.w.widgets wi) (s.w.scroll_areas i).flags) 0)) } := by
  simp [vTrackBottom, State.setArea, updateThumbs, invalidateWidget, State.call, stepTrackHeight]

/-- When the visible track width fits an `int16_t`, the local `trackWidth` of
the step handlers holds it. -/
theorem stepTrackWidth_eq (c : Constants) (widget : widget_t) (a : scroll_area_t)
    (h0 : -32768 ≤ visibleTrackWidth c widget a) (h1 : visibleTrackWidth c widget a ≤ 32767) :
    stepTrackWidth c widget a.flags = visibleTrackWidth c widget a := by
  unfold stepTrackWidth visibleTrackWidth toInt16 at *
  split_ifs at * <;> omega

theorem stepTrackHeight_eq (c : Constants) (widget : widget_t) (a : scroll_area_t)
    (h0 : -32768 ≤ visibleTrackHeight c widget a) (h1 : visibleTrackHeight c widget a ≤ 32767) :
    stepTrackHeight c widget a.flags = visibleTrackHeight c widget a := by
  unfold stepTrackHeight visibleTrackHeight toInt16 at *
  split_ifs at * <;> omega

/-! ### The offset invariant under the step handlers -/

theorem hButtonLeft_inRange (c : Constants) (s : State) (i wi : Nat)
    (hW0 : 0 ≤ visibleTrackWidth c (s.w.widgets wi) (s.w.scroll_areas i))
    (hW1 : visibleTrackWidth c (s.w.widgets wi) (s.w.scroll_areas i) ≤ 32767)
    (hc0 : 0 ≤ (s.w.scroll_areas i).contentWidth) (hc1 : (s.w.scroll_areas i).contentWidth ≤ 32767)
    (h : s.xInRange c i wi) :
    (hButtonLeft c s i wi).xInRange c i wi := by
  unfold State.xInRange at *
  rw [hButtonLeft_area]
  show offsetXInRange c (s.w.widgets wi) _
  unfold offsetXInRange maxOffsetX visibleTrackWidth toInt16 at *
  simp only [or_and_of_disjoint _ 4 16 (by decide), max_def, min_def] at *
  split_ifs at * <;> omega

theorem hButtonRight_inRange (c : Constants) (s : State) (i wi : Nat)
    (hW0 : 0 ≤ visibleTrackWidth c (s.w.widgets wi) (s.w.scroll_areas i))
    (hW1 : visibleTrackWidth c (s.w.widgets wi) (s.w.scroll_areas i) ≤ 32767)
    (hc0 : 0 ≤ (s.w.scroll_areas i).contentWidth) (hc1 : (s.w.scroll_areas i).contentWidth ≤ 32767)
    (hs : (s.w.scroll_areas i).contentOffsetX + c.buttonClickStep ≤ 32767)
    (h : s.xInRange c i wi) :
    (hButtonRight c s i wi).xInRange c i wi := by
  unfold State.xInRange at *
  rw [hButtonRight_area, stepTrackWidth_eq c _ _ (by omega) hW1]
  show offsetXInRange c (s.w.widgets wi) _
  unfold offsetXInRange maxOffsetX visibleTrackWidth toInt16 at *
  simp only [or_and_of_disjoint _ 8 16 (by decide), max_def, min_def] at *
  split_ifs at * <;> omega

theorem hTrackLeft_inRange (c : Constants) (s : State) (i wi : Nat)
    (hW0 : 0 ≤ visibleTrackWidth c (s.w.widgets wi) (s.w.scroll_areas i))
    (hW1 : visibleTrackWidth c (s.w.widgets wi) (s.w.scroll_areas i) ≤ 32767)
    (hc0 : 0 ≤ (s.w.scroll_areas i).contentWidth) (hc1 : (s.w.scroll_areas i).contentWidth ≤ 32767)
    (h : s.xInRange c i wi) :
    (hTrackLeft c s i wi).xInRange c i wi := by
  unfold State.xInRange at *
  rw [hTrackLeft_area, stepTrackWidth_eq c _ _ (by omega) hW1]
  show offsetXInRange c (s.w.widgets wi) _
  unfold offsetXInRange maxOffsetX visibleTrackWidth toInt16 at *
  simp only [max_def, min_def] at *
  split_ifs at * <;> omega

theorem hTrackRight_inRange (c : Constants) (s : State) (i wi : Nat)
    (hW0 : 0 ≤ visibleTrackWidth c (s.w.widgets wi) (s.w.scroll_areas i))
    (hW1 : visibleTrackWidth c (s.w.widgets wi) (s.w.scroll_areas i) ≤ 32767)
    (hc0 : 0 ≤ (s.w.scroll_areas i).contentWidth) (hc1 : (s.w.scroll_areas i).contentWidth ≤ 32767)
    (h : s.xInRange c i wi) :
    (hTrackRight c s i wi).xInRange c i wi := by
  unfold State.xInRange at *
  rw [hTrackRight_area, stepTrackWidth_eq c _ _ (by omega) hW1]
  show offsetXInRange c (s.w.widgets wi) _
  unfold offsetXInRange maxOffsetX visibleTrackWidth toInt16 at *
  simp only [max_def, min_def] at *
  split_ifs at * <;> omega

theorem vButtonTop_inRange (c : Constants) (s : State) (i wi : Nat)
    (hW0 : 0 ≤ visibleTrackHeight c (s.w.widgets wi) (s.w.scroll_areas i))
    (hW1 : visibleTrackHeight c (s.w.widgets wi) (s.w.scroll_areas i) ≤ 32767)
    (hc0 : 0 ≤ (s.w.scroll_areas i).contentHeight) (hc1 : (s.w.scroll_areas i).contentHeight ≤ 32767)
    (h : s.yInRange c i wi) :
    (vButtonTop c s i wi).yInRange c i wi := by
  unfold State.yInRange at *
  rw [vButtonTop_area]
  show offsetYInRange c (s.w.widgets wi) _
  unfold offsetYInRange maxOffsetY visibleTrackHeight toInt16 at *
  simp only [or_and_of_disjoint _ 64 1 (by decide), max_def, min_def] at *
  split_ifs at * <;> omega

theorem vButtonBottom_inRange (c : Constants) (s : State) (i wi : Nat)
    (hW0 : 0 ≤ visibleTrackHeight c (s.w.widgets wi) (s.w.scroll_areas i))
    (hW1 : visibleTrackHeight c (s.w.widgets wi) (s.w.scroll_areas i) ≤ 32767)
    (hc0 : 0 ≤ (s.w.scroll_areas i).contentHeight) (hc1 : (s.w.scroll_areas i).contentHeight ≤ 32767)
    (hs : (s.w.scroll_areas i).contentOffsetY + c.buttonClickStep ≤ 32767)
    (h : s.yInRange c i wi) :
    (vButtonBottom c s i wi).yInRange c i wi := by
  unfold State.yInRange at *
  rw [vButtonBottom_area, stepTrackHeight_eq c _ _ (by omega) hW1]
  show offsetYInRange c (s.w.widgets wi) _
  unfold offsetYInRange maxOffsetY visibleTrackHeight toInt16 at *
  simp only [or_and_of_disjoint _ 128 1 (by decide), max_def, min_def] at *
  split_ifs at * <;> omega

theorem vTrackTop_inRange (c : Constants) (s : State) (i wi : Nat)
    (hW0 : 0 ≤ visibleTrackHeight c (s.w.widgets wi) (s.w.scroll_areas i))
    (hW1 : visibleTrackHeight c (s.w.widgets wi) (s.w.scroll_areas i) ≤ 32767)
    (hc0 : 0 ≤ (s.w.scroll_areas i).contentHeight) (hc1 : (s.w.scroll_areas i).contentHeight ≤ 32767)
    (h : s.yInRange c i wi) :
    (vTrackTop c s i wi).yInRange c i wi := by
  unfold State.yInRange at *
  rw [vTrackTop_area, stepTrackHeight_eq c _ _ (by omega) hW1]
  show offsetYInRange c (s.w.widgets wi) _
  unfold offsetYInRange maxOffsetY visibleTrackHeight toInt16 at *
  simp only [max_def, min_def] at *
  split_ifs at * <;> omega

theorem vTrackBottom_inRange (c : Constants) (s : State) (i wi : Nat)
    (hW0 : 0 ≤ visibleTrackHeight c (s.w.widgets wi) (s.w.scroll_areas i))
    (hW1 : visibleTrackHeight c (s.w.widgets wi) (s.w.scroll_areas i) ≤ 32767)
    (hc0 : 0 ≤ (s.w.scroll_areas i).contentHeight) (hc1 : (s.w.scroll_areas i).contentHeight ≤ 32767)
    (h : s.yInRange c i wi) :
    (vTrackBottom c s i wi).yInRange c i wi := by
  unfold State.yInRange at *
  rw [vTrackBottom_area, stepTrackHeight_eq c _ _ (by omega) hW1]
  show offsetYInRange c (s.w.widgets wi) _
  unfold offsetYInRange maxOffsetY visibleTrackHeight toInt16 at *
  simp only [max_def, min_def] at *
  split_ifs at * <;> omega

/-- C1 (amended): for a widget whose visible track width lies in [0, 32767] and a
scroll area whose content width lies in [0, 32767] and whose `contentOffsetX` is
in `[0, max(0, contentWidth - visibleTrackWidth)]`, the handlers `hButtonLeft`,
`hTrackLeft` and `hTrackRight` leave `contentOffsetX` in that range, and so does
`hButtonRight` when `contentOffsetX + buttonClickStep` fits a signed 16-bit
integer; symmetrically `vButtonTop`, `vTrackTop`, `vTrackBottom` and (under the
same proviso) `vButtonBottom` keep `contentOffsetY` in
`[0, max(0, contentHeight - visibleTrackHeight)]`. -/
theorem step_handlers_keep_offset_in_range (c : Constants) (s : State) (i wi : Nat) :
    (0 ≤ visibleTrackWidth c (s.w.widgets wi) (s.w.scroll_areas i) →
      visibleTrackWidth c (s.w.widgets wi) (s.w.scroll_areas i) ≤ 32767 →
      0 ≤ (s.w.scroll_areas i).contentWidth → (s.w.scroll_areas i).contentWidth ≤ 32767 →
      s.xInRange c i wi →
        (hButtonLeft c s i wi).xInRange c i wi ∧
        ((s.w.scroll_areas i).contentOffsetX + c.buttonClickStep ≤ 32767 →
          (hButtonRight c s i wi).xInRange c i wi) ∧
        (hTrackLeft c s i wi).xInRange c i wi ∧
        (hTrackRight c s i wi).xInRange c i wi) ∧
    (0 ≤ visibleTrackHeight c (s.w.widgets wi) (s.w.scroll_areas i) →
      visibleTrackHeight c (s.w.widgets wi) (s.w.scroll_areas i) ≤ 32767 →
      0 ≤ (s.w.scroll_areas i).contentHeight → (s.w.scroll_areas i).contentHeight ≤ 32767 →
      s.yInRange c i wi →
        (vButtonTop c s i wi).yInRange c i wi ∧
        ((s.w.scroll_areas i).contentOffsetY + c.buttonClickStep ≤ 32767 →
          (vButtonBottom c s i wi).yInRange c i wi) ∧
        (vTrackTop c s i wi).yInRange c i wi ∧
        (vTrackBottom c s i wi).yInRange c i wi) := by
  constructor
  · intro hW0 hW1 hc0 hc1 h
    exact ⟨hButtonLeft_inRange c s i wi hW0 hW1 hc0 hc1 h,
      fun hs => hButtonRight_inRange c s i wi hW0 hW1 hc0 hc1 hs h,
      hTrackLeft_inRange c s i wi hW0 hW1 hc0 hc1 h,
      hTrackRight_inRange c s i wi hW0 hW1 hc0 hc1 h⟩
  · intro hW0 hW1 hc0 hc1 h
    exact ⟨vButtonTop_inRange c s i wi hW0 hW1 hc0 hc1 h,
      fun hs => vButtonBottom_inRange c s i wi hW0 hW1 hc0 hc1 hs h,
      vTrackTop_inRange c s i wi hW0 hW1 hc0 hc1 h,
      vTrackBottom_inRange c s i wi hW0 hW1 hc0 hc1 h⟩

/-- Instance of `step_handlers_keep_offset_in_range`: a 200 by 200 widget over
1000 by 1000 content, offsets 400 and 300, no bar visible. -/
theorem step_handlers_keep_offset_in_range_witness :
    ((hButtonLeft exampleConstants (mkState ⟨200, 200⟩ ⟨0, 400, 1000, 300, 1000⟩) 0 0).xInRange
        exampleConstants 0 0 ∧
      (hButtonRight exampleConstants (mkState ⟨200, 200⟩ ⟨0, 400, 1000, 300, 1000⟩) 0 0).xInRange
        exampleConstants 0 0 ∧
      (hTrackLeft exampleConstants (mkState ⟨200, 200⟩ ⟨0, 400, 1000, 300, 1000⟩) 0 0).xInRange
        exampleConstants 0 0 ∧
      (hTrackRight exampleConstants (mkState ⟨200, 200⟩ ⟨0, 400, 1000, 300, 1000⟩) 0 0).xInRange
        exampleConstants 0 0) ∧
    ((vButtonTop exampleConstants (mkState ⟨200, 200⟩ ⟨0, 400, 1000, 300, 1000⟩) 0 0).yInRange
        exampleConstants 0 0 ∧
      (vButtonBottom exampleConstants (mkState ⟨200, 200⟩ ⟨0, 400, 1000, 300, 1000⟩) 0 0).yInRange
        exampleConstants 0 0 ∧
      (vTrackTop exampleConstants (mkState ⟨200, 200⟩ ⟨0, 400, 1000, 300, 1000⟩) 0 0).yInRange
        exampleConstants 0 0 ∧
      (vTrackBottom exampleConstants (mkState ⟨200, 200⟩ ⟨0, 400, 1000, 300, 1000⟩) 0 0).yInRange
        exampleConstants 0 0) :=
  have t := step_handlers_keep_offset_in_range exampleConstants
    (mkState ⟨200, 200⟩ ⟨0, 400, 1000, 300, 1000⟩) 0 0
  have tx := t.1 (by decide) (by decide) (by decide) (by decide) (by decide)
  have ty := t.2 (by decide) (by decide) (by decide) (by decide) (by decide)
  ⟨⟨tx.1, tx.2.1 (by decide), tx.2.2.1, tx.2.2.2⟩, ⟨ty.1, ty.2.1 (by decide), ty.2.2.1, ty.2.2.2⟩⟩

/-- C1 as stated fails. On a widget of width 1 (visible track width -1) with
empty content, `hTrackRight` takes the in-range offset 0 to -1; on a widget of
width 2 with content width 32767, `hButtonRight` takes the in-range offset 32767
to a negative value, because `32767 + buttonClickStep` does not fit a signed
16-bit integer; and on a widget of width 40000 with empty content, `hTrackLeft`
takes the in-range offset 0 to 25538, because the visible track width 39998
does not fit the handler's `int16_t trackWidth`. -/
theorem step_handlers_offset_range_counterexample :
    ((mkState ⟨1, 1⟩ ⟨0, 0, 0, 0, 0⟩).xInRange exampleConstants 0 0 ∧
      ((hTrackRight exampleConstants (mkState ⟨1, 1⟩ ⟨0, 0, 0, 0, 0⟩) 0 0).w.scroll_areas
        0).contentOffsetX = -1 ∧
      ¬ (hTrackRight exampleConstants (mkState ⟨1, 1⟩ ⟨0, 0, 0, 0, 0⟩) 0 0).xInRange
        exampleConstants 0 0) ∧
    ((mkState ⟨2, 2⟩ ⟨0, 32767, 32767, 0, 0⟩).xInRange exampleConstants 0 0 ∧
      ((hButtonRight exampleConstants (mkState ⟨2, 2⟩ ⟨0, 32767, 32767, 0, 0⟩) 0 0).w.scroll_areas
        0).contentOffsetX = -32759 ∧
      ¬ (hButtonRight exampleConstants (mkState ⟨2, 2⟩ ⟨0, 32767, 32767, 0, 0⟩) 0 0).xInRange
        exampleConstants 0 0) ∧
    ((mkState ⟨40000, 2⟩ ⟨0, 0, 0, 0, 0⟩).xInRange exampleConstants 0 0 ∧
      ((hTrackLeft exampleConstants (mkState ⟨40000, 2⟩ ⟨0, 0, 0, 0, 0⟩) 0 0).w.scroll_areas
        0).contentOffsetX = 25538 ∧
      ¬ (hTrackLeft exampleConstants (mkState ⟨40000, 2⟩ ⟨0, 0, 0, 0, 0⟩) 0 0).xInRange
        exampleConstants 0 0) := by
  decide

/-! ### The drag-follow handlers in closed form -/

theorem horizontalFollow_eq (c : Constants) (s : State) (widget : widget_t) (wi i : Nat)
    (d : Int) :
    horizontalFollow c s widget wi i d =
      some (if followTrackWidth c widget (s.w.scroll_areas i).flags = 0 then
        s.setArea i { s.w.scroll_areas i with
          flags := (s.w.scroll_areas i).flags ||| ScrollFlags.HSCROLLBAR_THUMB_PRESSED }
      else
        invalidateWidget (updateThumbs (s.setArea i { s.w.scroll_areas i with
          flags := (s.w.scroll_areas i).flags ||| ScrollFlags.HSCROLLBAR_THUMB_PRESSED
          contentOffsetX := followOffsetX c widget (s.w.scroll_areas i) d }) wi)
          s.w.type s.w.number wi) := by
  unfold horizontalFollow followOffsetX followTrackWidth visibleTrackWidth divInt
  simp only [or_and_of_disjoint _ 2 16 (by decide)]
  split_ifs <;> simp_all [State.setArea, updateThumbs, invalidateWidget, State.call]


theorem verticalFollow_eq (c : Constants) (s : State) (widget : widget_t) (wi i : Nat)
    (d : Int) :
    verticalFollow c s widget wi i d =
      some (if followTrackHeight c widget (s.w.scroll_areas i).flags = 0 then
        s.setArea i { s.w.scroll_areas i with
          flags := (s.w.scroll_areas i).flags ||| ScrollFlags.VSCROLLBAR_THUMB_PRESSED }
      else
        invalidateWidget (updateThumbs (s.setArea i { s.w.scroll_areas i with
          flags := (s.w.scroll_areas i).flags ||| ScrollFlags.VSCROLLBAR_THUMB_PRESSED
          contentOffsetY := followOffsetY c widget (s.w.scroll_areas i) d }) wi)
          s.w.type s.w.number wi) := by
  unfold verticalFollow followOffsetY followTrackHeight visibleTrackHeight divInt
  simp only [or_and_of_disjoint _ 32 1 (by decide)]
  split_ifs <;> simp_all [State.setArea, updateThumbs, invalidateWidget, State.call]

theorem horizontalDragFollow_eq (c : Constants) (s : State) (widget : widget_t) (wi i : Nat)
    (d : Int) :
    horizontalDragFollow c s widget wi i d =
      some (if (s.w.scroll_areas i).flags &&& ScrollFlags.HSCROLLBAR_VISIBLE = 0 then s
      else if followTrackWidth c widget (s.w.scroll_areas i).flags = 0 then s
      else
        invalidateWidget (updateThumbs (s.setArea i { s.w.scroll_areas i with
          contentOffsetX := followOffsetX c widget (s.w.scroll_areas i) d }) wi)
          s.w.type s.w.number wi) := by
  unfold horizontalDragFollow followOffsetX followTrackWidth visibleTrackWidth divInt
  split_ifs <;> simp_all [State.setArea, updateThumbs, invalidateWidget, State.call]

theorem verticalDragFollow_eq (c : Constants) (s : State) (widget : widget_t) (wi i : Nat)
    (d : Int) :
    verticalDragFollow c s widget wi i d =
      some (if (s.w.scroll_areas i).flags &&& ScrollFlags.VSCROLLBAR_VISIBLE = 0 then s
      else if followTrackHeight c widget (s.w.scroll_areas i).flags = 0 then s
      else
        invalidateWidget (updateThumbs (s.setArea i { s.w.scroll_areas i with
          contentOffsetY := followOffsetY c widget (s.w.scroll_areas i) d }) wi)
          s.w.type s.w.number wi) := by
  unfold verticalDragFollow followOffsetY followTrackHeight visibleTrackHeight divInt
  split_ifs <;> simp_all [State.setArea, updateThumbs, invalidateWidget, State.call]

/-! ### The offset invariant under the drag-follow handlers -/

theorem followOffsetX_inRange (c : Constants) (widget : widget_t) (a : scroll_area_t) (d : Int)
    (hM : -32768 ≤ a.contentWidth - visibleTrackWidth c widget a) :
    0 ≤ followOffsetX c widget a d ∧ followOffsetX c widget a d ≤ maxOffsetX c widget a := by
  unfold followOffsetX maxOffsetX clamp
  generalize toInt16 (a.contentOffsetX +
    Int.tdiv (d * a.contentWidth) (followTrackWidth c widget a.flags)) = n
  generalize visibleTrackWidth c widget a = W at *
  unfold toInt16
  simp only [max_def]
  split_ifs <;> omega

theorem followOffsetY_inRange (c : Constants) (widget : widget_t) (a : scroll_area_t) (d : Int)
    (hM : -32768 ≤ a.contentHeight - visibleTrackHeight c widget a) :
    0 ≤ followOffsetY c widget a d ∧ followOffsetY c widget a d ≤ maxOffsetY c widget a := by
  unfold followOffsetY maxOffsetY clamp
  generalize toInt16 (a.contentOffsetY +
    Int.tdiv (d * a.contentHeight) (followTrackHeight c widget a.flags)) = n
  generalize visibleTrackHeight c widget a = W at *
  unfold toInt16
  simp only [max_def]
  split_ifs <;> omega

theorem horizontalFollow_inRange (c : Constants) (s : State) (widget : widget_t) (wi i : Nat)
    (d : Int)
    (hM : -32768 ≤ (s.w.scroll_areas i).contentWidth -
      visibleTrackWidth c widget (s.w.scroll_areas i))
    (h : offsetXInRange c widget (s.w.scroll_areas i)) :
    ∃ s', horizontalFollow c s widget wi i d = some s' ∧
      offsetXInRange c widget (s'.w.scroll_areas i) := by
  refine ⟨_, horizontalFollow_eq c s widget wi i d, ?_⟩
  have hr := followOffsetX_inRange c widget (s.w.scroll_areas i) d hM
  unfold offsetXInRange maxOffsetX visibleTrackWidth at *
  split_ifs <;>
    simp_all [State.setArea, updateThumbs, invalidateWidget, State.call,
      or_and_of_disjoint _ 2 16 (by decide)]


theorem verticalFollow_inRange (c : Constants) (s : State) (widget : widget_t) (wi i : Nat)
    (d : Int)
    (hM : -32768 ≤ (s.w.scroll_areas i).contentHeight -
      visibleTrackHeight c widget (s.w.scroll_areas i))
    (h : offsetYInRange c widget (s.w.scroll_areas i)) :
    ∃ s', verticalFollow c s widget wi i d = some s' ∧
      offsetYInRange c widget (s'.w.scroll_areas i) := by
  refine ⟨_, verticalFollow_eq c s widget wi i d, ?_⟩
  have hr := followOffsetY_inRange c widget (s.w.scroll_areas i) d hM
  unfold offsetYInRange maxOffsetY visibleTrackHeight at *
  split_ifs <;>
    simp_all [State.setArea, updateThumbs, invalidateWidget, State.call,
      or_and_of_disjoint _ 32 1 (by decide)]

theorem horizontalDragFollow_inRange (c : Constants) (s : State) (widget : widget_t)
    (wi i : Nat) (d : Int)
    (hM : -32768 ≤ (s.w.scroll_areas i).contentWidth -
      visibleTrackWidth c widget (s.w.scroll_areas i))
    (h : offsetXInRange c widget (s.w.scroll_areas i)) :
    ∃ s', horizontalDragFollow c s widget wi i d = some s' ∧
      offsetXInRange c widget (s'.w.scroll_areas i) := by
  refine ⟨_, horizontalDragFollow_eq c s widget wi i d, ?_⟩
  have hr := followOffsetX_inRange c widget (s.w.scroll_areas i) d hM
  unfold offsetXInRange maxOffsetX visibleTrackWidth at *
  split_ifs <;>
    simp_all [State.setArea, updateThumbs, invalidateWidget, State.call]

theorem verticalDragFollow_inRange (c : Constants) (s : State) (widget : widget_t)
    (wi i : Nat) (d : Int)
    (hM : -32768 ≤ (s.w.scroll_areas i).contentHeight -
      visibleTrackHeight c widget (s.w.scroll_areas i))
    (h : offsetYInRange c widget (s.w.scroll_areas i)) :
    ∃ s', verticalDragFollow c s widget wi i d = some s' ∧
      offsetYInRange c widget (s'.w.scroll_areas i) := by
  refine ⟨_, verticalDragFollow_eq c s widget wi i d, ?_⟩
  have hr := followOffsetY_inRange c widget (s.w.scroll_areas i) d hM
  unfold offsetYInRange maxOffsetY visibleTrackHeight at *
  split_ifs <;>
    simp_all [State.setArea, updateThumbs, invalidateWidget, State.call]

/-- C2 (amended): for every widget, every delta and every scroll area with
`contentWidth - visibleTrackWidth >= -32768` (the bound of the handlers'
`int16_t maxOffset`) whose `contentOffsetX` is in
`[0, max(0, contentWidth - visibleTrackWidth)]`, `horizontalFollow` and
`horizontalDragFollow` return and leave `contentOffsetX` in that range;
symmetrically `verticalFollow` and `verticalDragFollow` keep `contentOffsetY` in
`[0, max(0, contentHeight - visibleTrackHeight)]` when
`contentHeight - visibleTrackHeight >= -32768`. -/
theorem drag_follow_keeps_offset_in_range (c : Constants) (s : State) (widget : widget_t)
    (wi i : Nat) (d : Int) :
    (-32768 ≤ (s.w.scroll_areas i).contentWidth -
        visibleTrackWidth c widget (s.w.scroll_areas i) →
      offsetXInRange c widget (s.w.scroll_areas i) →
        (∃ s', horizontalFollow c s widget wi i d = some s' ∧
          offsetXInRange c widget (s'.w.scroll_areas i)) ∧
        (∃ s', horizontalDragFollow c s widget wi i d = some s' ∧
          offsetXInRange c widget (s'.w.scroll_areas i))) ∧
    (-32768 ≤ (s.w.scroll_areas i).contentHeight -
        visibleTrackHeight c widget (s.w.scroll_areas i) →
      offsetYInRange c widget (s.w.scroll_areas i) →
        (∃ s', verticalFollow c s widget wi i d = some s' ∧
          offsetYInRange c widget (s'.w.scroll_areas i)) ∧
        (∃ s', verticalDragFollow c s widget wi i d = some s' ∧
          offsetYInRange c widget (s'.w.scroll_areas i))) :=
  ⟨fun hM h => ⟨horizontalFollow_inRange c s widget wi i d hM h,
      horizontalDragFollow_inRange c s widget wi i d hM h⟩,
    fun hM h => ⟨verticalFollow_inRange c s widget wi i d hM h,
      verticalDragFollow_inRange c s widget wi i d hM h⟩⟩

/-- Instance of `drag_follow_keeps_offset_in_range`: a 200 by 200 widget over
1000 by 1000 content with both bars visible, offsets 400 and 300, delta 20. -/
theorem drag_follow_keeps_offset_in_range_witness :
    ((∃ s', horizontalFollow exampleConstants (mkState ⟨200, 200⟩ ⟨17, 400, 1000, 300, 1000⟩)
          ⟨200, 200⟩ 0 0 20 = some s' ∧
        offsetXInRange exampleConstants ⟨200, 200⟩ (s'.w.scroll_areas 0)) ∧
      (∃ s', horizontalDragFollow exampleConstants
          (mkState ⟨200, 200⟩ ⟨17, 400, 1000, 300, 1000⟩) ⟨200, 200⟩ 0 0 20 = some s' ∧
        offsetXInRange exampleConstants ⟨200, 200⟩ (s'.w.scroll_areas 0))) ∧
    ((∃ s', verticalFollow exampleConstants (mkState ⟨200, 200⟩ ⟨17, 400, 1000, 300, 1000⟩)
          ⟨200, 200⟩ 0 0 20 = some s' ∧
        offsetYInRange exampleConstants ⟨200, 200⟩ (s'.w.scroll_areas 0)) ∧
      (∃ s', verticalDragFollow exampleConstants
          (mkState ⟨200, 200⟩ ⟨17, 400, 1000, 300, 1000⟩) ⟨200, 200⟩ 0 0 20 = some s' ∧
        offsetYInRange exampleConstants ⟨200, 200⟩ (s'.w.scroll_areas 0))) :=
  have t := drag_follow_keeps_offset_in_range exampleConstants
    (mkState ⟨200, 200⟩ ⟨17, 400, 1000, 300, 1000⟩) ⟨200, 200⟩ 0 0 20
  ⟨t.1 (by decide) (by decide), t.2 (by decide) (by decide)⟩

/-- C2 as stated fails for a very wide widget. With widget width 40001, content
width 3, the horizontal bar visible and offset 0, the valid range is [0, 0]
(`max(0, 3 - 39999) = 0`), but `int16_t maxOffset = 3 - 39999` wraps to 25540,
so a delta of 32767 (content delta `32767 * 3 / 39979 = 2`) makes
`horizontalFollow` and `horizontalDragFollow` store offset 2. -/
theorem drag_follow_offset_range_counterexample :
    offsetXInRange exampleConstants ⟨40001, 200⟩ ⟨1, 0, 3, 0, 0⟩ ∧
    maxOffsetX exampleConstants ⟨40001, 200⟩ ⟨1, 0, 3, 0, 0⟩ = 0 ∧
    (∃ s', horizontalFollow exampleConstants (mkState ⟨40001, 200⟩ ⟨1, 0, 3, 0, 0⟩)
        ⟨40001, 200⟩ 0 0 32767 = some s' ∧
      (s'.w.scroll_areas 0).contentOffsetX = 2 ∧
      ¬ offsetXInRange exampleConstants ⟨40001, 200⟩ (s'.w.scroll_areas 0)) ∧
    (∃ s', horizontalDragFollow exampleConstants (mkState ⟨40001, 200⟩ ⟨1, 0, 3, 0, 0⟩)
        ⟨40001, 200⟩ 0 0 32767 = some s' ∧
      (s'.w.scroll_areas 0).contentOffsetX = 2 ∧
      ¬ offsetXInRange exampleConstants ⟨40001, 200⟩ (s'.w.scroll_areas 0)) :=
  ⟨by decide, by decide,
    ⟨_, horizontalFollow_eq _ _ _ _ _ _, by decide, by decide⟩,
    ⟨_, horizontalDragFollow_eq _ _ _ _ _ _, by decide, by decide⟩⟩

/-! ### Drag-follow arithmetic -/

theorem followTrackWidth_eq (c : Constants) (widget : widget_t) (a : scroll_area_t)
    (h0 : 0 ≤ usableTrackWidth c widget a) (h1 : usableTrackWidth c widget a < 65536) :
    followTrackWidth c widget a.flags = usableTrackWidth c widget a := by
  unfold followTrackWidth usableTrackWidth toUInt16 at *
  split_ifs at * <;> omega

theorem followTrackHeight_eq (c : Constants) (widget : widget_t) (a : scroll_area_t)
    (h0 : 0 ≤ usableTrackHeight c widget a) (h1 : usableTrackHeight c widget a < 65536) :
    followTrackHeight c widget a.flags = usableTrackHeight c widget a := by
  unfold followTrackHeight usableTrackHeight toUInt16 at *
  split_ifs at * <;> omega

theorem toInt16_of_isInt16 (x : Int) (h : isInt16 x) : toInt16 x = x := by
  unfold isInt16 at h; unfold toInt16; omega

theorem followOffsetX_exact (c : Constants) (widget : widget_t) (a : scroll_area_t) (d : Int)
    (hT0 : 0 < usableTrackWidth c widget a) (hT1 : usableTrackWidth c widget a < 65536)
    (hfit : isInt16 (a.contentOffsetX +
      Int.tdiv (d * a.contentWidth) (usableTrackWidth c widget a)))
    (hM : isInt16 (a.contentWidth - visibleTrackWidth c widget a)) :
    followOffsetX c widget a d =
      clamp (a.contentOffsetX + Int.tdiv (d * a.contentWidth) (usableTrackWidth c widget a))
        0 (max 0 (a.contentWidth - visibleTrackWidth c widget a)) := by
  unfold followOffsetX
  rw [followTrackWidth_eq c widget a (by omega) hT1, toInt16_of_isInt16 _ hfit,
    toInt16_of_isInt16 _ hM, max_comm]

theorem followOffsetY_exact (c : Constants) (widget : widget_t) (a : scroll_area_t) (d : Int)
    (hT0 : 0 < usableTrackHeight c widget a) (hT1 : usableTrackHeight c widget a < 65536)
    (hfit : isInt16 (a.contentOffsetY +
      Int.tdiv (d * a.contentHeight) (usableTrackHeight c widget a)))
    (hM : isInt16 (a.contentHeight - visibleTrackHeight c widget a)) :
    followOffsetY c widget a d =
      clamp (a.contentOffsetY + Int.tdiv (d * a.contentHeight) (usableTrackHeight c widget a))
        0 (max 0 (a.contentHeight - visibleTrackHeight c widget a)) := by
  unfold followOffsetY
  rw [followTrackHeight_eq c widget a (by omega) hT1, toInt16_of_isInt16 _ hfit,
    toInt16_of_isInt16 _ hM, max_comm]

/-- C3 (amended): when the usable track length `T` is positive (and below 65536,
as a 16-bit widget extent makes it), `old offset + delta * contentWidth / T`
fits a signed 16-bit integer and so does `contentWidth - visibleTrackWidth`,
`horizontalFollow` returns and stores
`contentOffsetX = clamp(old + (delta * contentWidth) / T, 0,
max(0, contentWidth - visibleTrackWidth))`, the division truncating toward zero;
`verticalFollow` does the same on the Y axis. -/
theorem follow_stores_scaled_clamped_offset (c : Constants) (s : State) (widget : widget_t)
    (wi i : Nat) (d : Int) :
    (0 < usableTrackWidth c widget (s.w.scroll_areas i) →
      usableTrackWidth c widget (s.w.scroll_areas i) < 65536 →
      isInt16 ((s.w.scroll_areas i).contentOffsetX +
        Int.tdiv (d * (s.w.scroll_areas i).contentWidth)
          (usableTrackWidth c widget (s.w.scroll_areas i))) →
      isInt16 ((s.w.scroll_areas i).contentWidth -
        visibleTrackWidth c widget (s.w.scroll_areas i)) →
      ∃ s', horizontalFollow c s widget wi i d = some s' ∧
        (s'.w.scroll_areas i).contentOffsetX =
          clamp ((s.w.scroll_areas i).contentOffsetX +
              Int.tdiv (d * (s.w.scroll_areas i).contentWidth)
                (usableTrackWidth c widget (s.w.scroll_areas i)))
            0 (max 0 ((s.w.scroll_areas i).contentWidth -
              visibleTrackWidth c widget (s.w.scroll_areas i)))) ∧
    (0 < usableTrackHeight c widget (s.w.scroll_areas i) →
      usableTrackHeight c widget (s.w.scroll_areas i) < 65536 →
      isInt16 ((s.w.scroll_areas i).contentOffsetY +
        Int.tdiv (d * (s.w.scroll_areas i).contentHeight)
          (usableTrackHeight c widget (s.w.scroll_areas i))) →
      isInt16 ((s.w.scroll_areas i).contentHeight -
        visibleTrackHeight c widget (s.w.scroll_areas i)) →
      ∃ s', verticalFollow c s widget wi i d = some s' ∧
        (s'.w.scroll_areas i).contentOffsetY =
          clamp ((s.w.scroll_areas i).contentOffsetY +
              Int.tdiv (d * (s.w.scroll_areas i).contentHeight)
                (usableTrackHeight c widget (s.w.scroll_areas i)))
            0 (max 0 ((s.w.scroll_areas i).contentHeight -
              visibleTrackHeight c widget (s.w.scroll_areas i)))) := by
  constructor
  · intro hT0 hT1 hfit hM
    refine ⟨_, horizontalFollow_eq c s widget wi i d, ?_⟩
    have hz : followTrackWidth c widget (s.w.scroll_areas i).flags ≠ 0 := by
      rw [followTrackWidth_eq c widget _ (by omega) hT1]; omega
    rw [if_neg hz, ← followOffsetX_exact c widget _ d hT0 hT1 hfit hM]
    simp [State.setArea, updateThumbs, invalidateWidget, State.call]
  · intro hT0 hT1 hfit hM
    refine ⟨_, verticalFollow_eq c s widget wi i d, ?_⟩
    have hz : followTrackHeight c widget (s.w.scroll_areas i).flags ≠ 0 := by
      rw [followTrackHeight_eq c widget _ (by omega) hT1]; omega
    rw [if_neg hz, ← followOffsetY_exact c widget _ d hT0 hT1 hfit hM]
    simp [State.setArea, updateThumbs, invalidateWidget, State.call]

/-- Instance of `follow_stores_scaled_clamped_offset`, the scenario of the
specification: widget extent 122 (usable track length 100), content extent 1000,
prior offset 300 and delta 20 give `300 + 20 * 1000 / 100 = 500`. -/
theorem follow_stores_scaled_clamped_offset_witness :
    (∃ s', horizontalFollow exampleConstants (mkState ⟨122, 122⟩ ⟨0, 300, 1000, 300, 1000⟩)
        ⟨122, 122⟩ 0 0 20 = some s' ∧
      (s'.w.scroll_areas 0).contentOffsetX = clamp (300 + Int.tdiv (20 * 1000) 100) 0 880) ∧
    (∃ s', verticalFollow exampleConstants (mkState ⟨122, 122⟩ ⟨0, 300, 1000, 300, 1000⟩)
        ⟨122, 122⟩ 0 0 20 = some s' ∧
      (s'.w.scroll_areas 0).contentOffsetY = clamp (300 + Int.tdiv (20 * 1000) 100) 0 880) ∧
    clamp (300 + Int.tdiv (20 * 1000) 100) 0 880 = 500 :=
  have t := follow_stores_scaled_clamped_offset exampleConstants
    (mkState ⟨122, 122⟩ ⟨0, 300, 1000, 300, 1000⟩) ⟨122, 122⟩ 0 0 20
  ⟨t.1 (by decide) (by decide) (by decide) (by decide),
    t.2 (by decide) (by decide) (by decide) (by decide), by decide⟩

/-- C3 as stated fails for a very wide widget. With widget width 50000 (usable
track length 49978), content width 10, offset 0 and delta 30000 the hypotheses
of the claim hold and the claimed value is
`clamp(0 + 300000 / 49978, 0, max(0, 10 - 49998)) = 0`, but `horizontalFollow`
stores 6, since `int16_t maxOffset = 10 - 49998` wraps to 15548. -/
theorem follow_scaled_offset_counterexample :
    0 < usableTrackWidth exampleConstants ⟨50000, 200⟩ ⟨0, 0, 10, 0, 0⟩ ∧
    isInt16 (0 + Int.tdiv (30000 * 10)
      (usableTrackWidth exampleConstants ⟨50000, 200⟩ ⟨0, 0, 10, 0, 0⟩)) ∧
    clamp (0 + Int.tdiv (30000 * 10)
        (usableTrackWidth exampleConstants ⟨50000, 200⟩ ⟨0, 0, 10, 0, 0⟩))
      0 (max 0 (10 - visibleTrackWidth exampleConstants ⟨50000, 200⟩ ⟨0, 0, 10, 0, 0⟩)) = 0 ∧
    (∃ s', horizontalFollow exampleConstants (mkState ⟨50000, 200⟩ ⟨0, 0, 10, 0, 0⟩)
        ⟨50000, 200⟩ 0 0 30000 = some s' ∧
      (s'.w.scroll_areas 0).contentOffsetX = 6) :=
  ⟨by decide, by decide, by decide, ⟨_, horizontalFollow_eq _ _ _ _ _ _, by decide⟩⟩

/-! ### Repeated presses of the right button -/

theorem hButtonRight_offset (c : Constants) (s : State) (i wi : Nat)
    (hW : isInt16 (visibleTrackWidth c (s.w.widgets wi) (s.w.scroll_areas i)))
    (hM : isInt16 ((s.w.scroll_areas i).contentWidth -
      visibleTrackWidth c (s.w.widgets wi) (s.w.scroll_areas i)))
    (h0 : 0 ≤ (s.w.scroll_areas i).contentOffsetX)
    (hs : (s.w.scroll_areas i).contentOffsetX + c.buttonClickStep ≤ 32767) :
    ((hButtonRight c s i wi).w.scroll_areas i).contentOffsetX =
      min ((s.w.scroll_areas i).contentOffsetX + c.buttonClickStep)
        (maxOffsetX c (s.w.widgets wi) (s.w.scroll_areas i)) := by
  rw [hButtonRight_area, stepTrackWidth_eq c _ _ hW.1 hW.2]
  unfold maxOffsetX
  generalize visibleTrackWidth c (s.w.widgets wi) (s.w.scroll_areas i) = W at *
  unfold isInt16 at *
  unfold toInt16
  simp only [max_def, min_def]
  split_ifs <;> omega

theorem hButtonRight_frame (c : Constants) (s : State) (i wi : Nat) :
    (hButtonRight c s i wi).w.widgets = s.w.widgets ∧
    ((hButtonRight c s i wi).w.scroll_areas i).contentWidth = (s.w.scroll_areas i).contentWidth ∧
    visibleTrackWidth c (s.w.widgets wi) ((hButtonRight c s i wi).w.scroll_areas i) =
      visibleTrackWidth c (s.w.widgets wi) (s.w.scroll_areas i) := by
  refine ⟨rfl, ?_, ?_⟩
  · rw [hButtonRight_area]
  · rw [hButtonRight_area]
    simp [visibleTrackWidth, or_and_of_disjoint _ 8 16 (by decide)]

theorem hButtonRight_iterate_aux (c : Constants) (s : State) (i wi : Nat)
    (hW : isInt16 (visibleTrackWidth c (s.w.widgets wi) (s.w.scroll_areas i)))
    (hM : isInt16 ((s.w.scroll_areas i).contentWidth -
      visibleTrackWidth c (s.w.widgets wi) (s.w.scroll_areas i)))
    (h : s.xInRange c i wi) (n : Nat) :
    (s.w.scroll_areas i).contentOffsetX + n * c.buttonClickStep ≤ 32767 →
    ((fun t => hButtonRight c t i wi)^[n] s).w.widgets = s.w.widgets ∧
    (((fun t => hButtonRight c t i wi)^[n] s).w.scroll_areas i).contentWidth =
      (s.w.scroll_areas i).contentWidth ∧
    visibleTrackWidth c (s.w.widgets wi)
        (((fun t => hButtonRight c t i wi)^[n] s).w.scroll_areas i) =
      visibleTrackWidth c (s.w.widgets wi) (s.w.scroll_areas i) ∧
    (((fun t => hButtonRight c t i wi)^[n] s).w.scroll_areas i).contentOffsetX =
      min ((s.w.scroll_areas i).contentOffsetX + n * c.buttonClickStep)
        (maxOffsetX c (s.w.widgets wi) (s.w.scroll_areas i)) := by
  induction n with
  | zero =>
    intro _
    refine ⟨rfl, rfl, rfl, ?_⟩
    have := h.2
    simp only [Function.iterate_zero, id_eq]
    omega
  | succ k ih =>
    intro hfit
    have hk : (s.w.scroll_areas i).contentOffsetX + k * c.buttonClickStep ≤ 32767 := by
      push_cast at hfit; nlinarith [Int.natCast_nonneg c.buttonClickStep]
    obtain ⟨hwid, hcw, hvt, hoff⟩ := ih hk
    rw [Function.iterate_succ_apply']
    generalize (fun t => hButtonRight c t i wi)^[k] s = t at *
    obtain ⟨fw, fcw, fvt⟩ := hButtonRight_frame c t i wi
    refine ⟨fw.trans hwid, fcw.trans hcw, ?_, ?_⟩
    · rw [← hvt, ← hwid]; exact fvt
    · have h0 := h.1
      have hstep := hButtonRight_offset c t i wi (by rw [hwid, hvt]; exact hW)
        (by rw [hwid, hvt, hcw]; exact hM) (by
          rw [hoff]
          have hkn : (0 : Int) ≤ k * c.buttonClickStep := by positivity
          exact le_min (by linarith) (by unfold maxOffsetX; exact le_max_left 0 _))
        (by
          rw [hoff]; push_cast at hfit
          have := min_le_left ((s.w.scroll_areas i).contentOffsetX + k * c.buttonClickStep)
            (maxOffsetX c (s.w.widgets wi) (s.w.scroll_areas i))
          linarith)
      rw [hstep, hoff, hwid]
      unfold maxOffsetX
      rw [hvt, hcw]
      push_cast
      have hb := Int.natCast_nonneg c.buttonClickStep
      simp only [max_def, min_def]
      split_ifs <;> linarith


/-- C4 (amended): for a widget and scroll area whose visible track width `W` and
whose `contentWidth - W` both fit a signed 16-bit integer, with
`contentOffsetX = o` in `[0, M]`, `M = max(0, contentWidth - W)`, and every `n`
with `o + n * buttonClickStep` representable in signed 16 bits, applying
`hButtonRight` `n` times in succession yields
`contentOffsetX = min(o + n * buttonClickStep, M)`. -/
theorem hButtonRight_iterate (c : Constants) (s : State) (i wi n : Nat)
    (hW : isInt16 (visibleTrackWidth c (s.w.widgets wi) (s.w.scroll_areas i)))
    (hM : isInt16 ((s.w.scroll_areas i).contentWidth -
      visibleTrackWidth c (s.w.widgets wi) (s.w.scroll_areas i)))
    (h : s.xInRange c i wi)
    (hfit : isInt16 ((s.w.scroll_areas i).contentOffsetX + n * c.buttonClickStep)) :
    (((fun t => hButtonRight c t i wi)^[n] s).w.scroll_areas i).contentOffsetX =
      min ((s.w.scroll_areas i).contentOffsetX + n * c.buttonClickStep)
        (maxOffsetX c (s.w.widgets wi) (s.w.scroll_areas i)) :=
  (hButtonRight_iterate_aux c s i wi hW hM h n hfit.2).2.2.2

/-- Instance of `hButtonRight_iterate`, the scenario of the specification:
widget width 200, content width 1000, no vertical bar, step 10. One press takes
the offset from 0 to 10 and 100 presses end at `1000 - (200 - 2) = 802`. -/
theorem hButtonRight_iterate_witness :
    (((fun t => hButtonRight exampleConstants t 0 0)^[1]
      (mkState ⟨200, 200⟩ ⟨0, 0, 1000, 0, 1000⟩)).w.scroll_areas 0).contentOffsetX = 10 ∧
    (((fun t => hButtonRight exampleConstants t 0 0)^[100]
      (mkState ⟨200, 200⟩ ⟨0, 0, 1000, 0, 1000⟩)).w.scroll_areas 0).contentOffsetX = 802 :=
  ⟨(hButtonRight_iterate exampleConstants (mkState ⟨200, 200⟩ ⟨0, 0, 1000, 0, 1000⟩) 0 0 1
      (by decide) (by decide) (by decide) (by decide)).trans (by decide),
    (hButtonRight_iterate exampleConstants (mkState ⟨200, 200⟩ ⟨0, 0, 1000, 0, 1000⟩) 0 0 100
      (by decide) (by decide) (by decide) (by decide)).trans (by decide)⟩

/-- C4 as stated fails on a widget of width 1 with content width 32767: the
offset 0 is in `[0, M]` with `M = max(0, 32767 - (-1)) = 32768` and `0 + 1 * 10`
fits 16 bits, yet one press of `hButtonRight` stores -32768 instead of
`min(10, 32768) = 10`, because the cap is held in an `int16_t`. -/
theorem hButtonRight_iterate_counterexample :
    (mkState ⟨1, 1⟩ ⟨0, 0, 32767, 0, 0⟩).xInRange exampleConstants 0 0 ∧
    isInt16 (0 + 1 * 10) ∧
    min (0 + 1 * 10) (maxOffsetX exampleConstants ⟨1, 1⟩ ⟨0, 0, 32767, 0, 0⟩) = 10 ∧
    (((fun t => hButtonRight exampleConstants t 0 0)^[1]
      (mkState ⟨1, 1⟩ ⟨0, 0, 32767, 0, 0⟩)).w.scroll_areas 0).contentOffsetX = -32768 := by
  decide

/-! ### Backward steps -/

/-- C5 (amended): for every widget and every scroll area with 16-bit offsets,
`hButtonLeft` sets `contentOffsetX` to `max(old - buttonClickStep, 0)`, and
`hTrackLeft` sets it to `max(old - W, 0)`, `W` the visible track width, provided
`W` fits a signed 16-bit integer and `old - W` does not exceed 32767; `vButtonTop`
and `vTrackTop` do the same to `contentOffsetY` with the visible track height. -/
theorem backward_steps_floor_at_zero (c : Constants) (s : State) (i wi : Nat) :
    (isInt16 (s.w.scroll_areas i).contentOffsetX →
      ((hButtonLeft c s i wi).w.scroll_areas i).contentOffsetX =
        max ((s.w.scroll_areas i).contentOffsetX - c.buttonClickStep) 0) ∧
    (isInt16 (visibleTrackWidth c (s.w.widgets wi) (s.w.scroll_areas i)) →
      (s.w.scroll_areas i).contentOffsetX -
        visibleTrackWidth c (s.w.widgets wi) (s.w.scroll_areas i) ≤ 32767 →
      ((hTrackLeft c s i wi).w.scroll_areas i).contentOffsetX =
        max ((s.w.scroll_areas i).contentOffsetX -
          visibleTrackWidth c (s.w.widgets wi) (s.w.scroll_areas i)) 0) ∧
    (isInt16 (s.w.scroll_areas i).contentOffsetY →
      ((vButtonTop c s i wi).w.scroll_areas i).contentOffsetY =
        max ((s.w.scroll_areas i).contentOffsetY - c.buttonClickStep) 0) ∧
    (isInt16 (visibleTrackHeight c (s.w.widgets wi) (s.w.scroll_areas i)) →
      (s.w.scroll_areas i).contentOffsetY -
        visibleTrackHeight c (s.w.widgets wi) (s.w.scroll_areas i) ≤ 32767 →
      ((vTrackTop c s i wi).w.scroll_areas i).contentOffsetY =
        max ((s.w.scroll_areas i).contentOffsetY -
          visibleTrackHeight c (s.w.widgets wi) (s.w.scroll_areas i)) 0) := by
  refine ⟨?_, ?_, ?_, ?_⟩
  · intro h
    rw [hButtonLeft_area]
    unfold isInt16 at h
    unfold toInt16
    simp only [max_def]
    split_ifs <;> omega
  · intro hW h
    rw [hTrackLeft_area, stepTrackWidth_eq c _ _ hW.1 hW.2]
    generalize visibleTrackWidth c (s.w.widgets wi) (s.w.scroll_areas i) = W at *
    unfold toInt16
    simp only [max_def]
    split_ifs <;> omega
  · intro h
    rw [vButtonTop_area]
    unfold isInt16 at h
    unfold toInt16
    simp only [max_def]
    split_ifs <;> omega
  · intro hW h
    rw [vTrackTop_area, stepTrackHeight_eq c _ _ hW.1 hW.2]
    generalize visibleTrackHeight c (s.w.widgets wi) (s.w.scroll_areas i) = W at *
    unfold toInt16
    simp only [max_def]
    split_ifs <;> omega

/-- Instance of `backward_steps_floor_at_zero`, with the scenario of the
specification: a widget of extent 152 has visible track extent 150, and
`hTrackLeft` takes offset 200 to 50. -/
theorem backward_steps_floor_at_zero_witness :
    visibleTrackWidth exampleConstants ⟨152, 152⟩ ⟨0, 200, 1000, 200, 1000⟩ = 150 ∧
    ((hButtonLeft exampleConstants (mkState ⟨152, 152⟩ ⟨0, 200, 1000, 200, 1000⟩) 0
      0).w.scroll_areas 0).contentOffsetX = 190 ∧
    ((hTrackLeft exampleConstants (mkState ⟨152, 152⟩ ⟨0, 200, 1000, 200, 1000⟩) 0
      0).w.scroll_areas 0).contentOffsetX = 50 ∧
    ((vButtonTop exampleConstants (mkState ⟨152, 152⟩ ⟨0, 200, 1000, 200, 1000⟩) 0
      0).w.scroll_areas 0).contentOffsetY = 190 ∧
    ((vTrackTop exampleConstants (mkState ⟨152, 152⟩ ⟨0, 200, 1000, 200, 1000⟩) 0
      0).w.scroll_areas 0).contentOffsetY = 50 :=
  have t := backward_steps_floor_at_zero exampleConstants
    (mkState ⟨152, 152⟩ ⟨0, 200, 1000, 200, 1000⟩) 0 0
  ⟨by decide, (t.1 (by decide)).trans (by decide),
    (t.2.1 (by decide) (by decide)).trans (by decide),
    (t.2.2.1 (by decide)).trans (by decide),
    (t.2.2.2 (by decide) (by decide)).trans (by decide)⟩

/-- C5 as stated fails for `hTrackLeft`. On a widget of width 1 (`W = -1`) with
offset 32767 the claimed value is `max(32767 - (-1), 0) = 32768`, but the
handler stores -32768; and on a widget of width 40000 (`W = 39998`) with offset 0
the claimed value is 0, but `int16_t trackWidth` holds -25538 and the handler
stores 25538. -/
theorem backward_steps_counterexample :
    (max (32767 - visibleTrackWidth exampleConstants ⟨1, 1⟩ ⟨0, 32767, 32767, 0, 0⟩) 0 = 32768 ∧
      ((hTrackLeft exampleConstants (mkState ⟨1, 1⟩ ⟨0, 32767, 32767, 0, 0⟩) 0
        0).w.scroll_areas 0).contentOffsetX = -32768) ∧
    (max (0 - visibleTrackWidth exampleConstants ⟨40000, 1⟩ ⟨0, 0, 0, 0, 0⟩) 0 = 0 ∧
      ((hTrackLeft exampleConstants (mkState ⟨40000, 1⟩ ⟨0, 0, 0, 0, 0⟩) 0
        0).w.scroll_areas 0).contentOffsetX = 25538) := by
  decide

/-! ### Degenerate track -/

theorem sameOffsets_setFlags (s : State) (i f : Nat) :
    sameOffsets s (s.setArea i { s.w.scroll_areas i with flags := f }) := by
  intro j
  by_cases hj : j = i
  · subst hj; simp [State.setArea]
  · simp [State.setArea, Function.update_noteq hj]

/-- C6: when the usable track length computed by the handler (widget extent - 2 -
2 * thumbSize, less barWidth if the perpendicular bar is visible, as a
`uint16_t`) is 0, `horizontalFollow` and `horizontalDragFollow` (track width),
`verticalFollow` and `verticalDragFollow` (track height) return normally, no
division being attempted, and leave `contentOffsetX` and `contentOffsetY` of
every scroll area unchanged. -/
theorem zero_track_follow_keeps_offsets (c : Constants) (s : State) (widget : widget_t)
    (wi i : Nat) (d : Int) :
    (followTrackWidth c widget (s.w.scroll_areas i).flags = 0 →
      (∃ s', horizontalFollow c s widget wi i d = some s' ∧ sameOffsets s s') ∧
      (∃ s', horizontalDragFollow c s widget wi i d = some s' ∧ sameOffsets s s')) ∧
    (followTrackHeight c widget (s.w.scroll_areas i).flags = 0 →
      (∃ s', verticalFollow c s widget wi i d = some s' ∧ sameOffsets s s') ∧
      (∃ s', verticalDragFollow c s widget wi i d = some s' ∧ sameOffsets s s')) := by
  constructor
  · intro h
    refine ⟨⟨_, horizontalFollow_eq c s widget wi i d, ?_⟩,
      ⟨_, horizontalDragFollow_eq c s widget wi i d, ?_⟩⟩
    · rw [if_pos h]; exact sameOffsets_setFlags s i _
    · rw [if_pos h]; simp [sameOffsets]
  · intro h
    refine ⟨⟨_, verticalFollow_eq c s widget wi i d, ?_⟩,
      ⟨_, verticalDragFollow_eq c s widget wi i d, ?_⟩⟩
    · rw [if_pos h]; exact sameOffsets_setFlags s i _
    · rw [if_pos h]; simp [sameOffsets]

/-- Instance of `zero_track_follow_keeps_offsets`: a 33 by 33 widget with thumb
size 10, bar width 11 and both bars visible has usable track length
`33 - 2 - 20 - 11 = 0` on both axes. -/
theorem zero_track_follow_keeps_offsets_witness :
    usableTrackWidth exampleConstants ⟨33, 33⟩ ⟨17, 5, 100, 7, 100⟩ = 0 ∧
    usableTrackHeight exampleConstants ⟨33, 33⟩ ⟨17, 5, 100, 7, 100⟩ = 0 ∧
    ((∃ s', horizontalFollow exampleConstants (mkState ⟨33, 33⟩ ⟨17, 5, 100, 7, 100⟩) ⟨33, 33⟩
        0 0 20 = some s' ∧ sameOffsets (mkState ⟨33, 33⟩ ⟨17, 5, 100, 7, 100⟩) s') ∧
      (∃ s', horizontalDragFollow exampleConstants (mkState ⟨33, 33⟩ ⟨17, 5, 100, 7, 100⟩)
        ⟨33, 33⟩ 0 0 20 = some s' ∧ sameOffsets (mkState ⟨33, 33⟩ ⟨17, 5, 100, 7, 100⟩) s')) ∧
    ((∃ s', verticalFollow exampleConstants (mkState ⟨33, 33⟩ ⟨17, 5, 100, 7, 100⟩) ⟨33, 33⟩
        0 0 20 = some s' ∧ sameOffsets (mkState ⟨33, 33⟩ ⟨17, 5, 100, 7, 100⟩) s') ∧
      (∃ s', verticalDragFollow exampleConstants (mkState ⟨33, 33⟩ ⟨17, 5, 100, 7, 100⟩)
        ⟨33, 33⟩ 0 0 20 = some s' ∧ sameOffsets (mkState ⟨33, 33⟩ ⟨17, 5, 100, 7, 100⟩) s')) :=
  have t := zero_track_follow_keeps_offsets exampleConstants
    (mkState ⟨33, 33⟩ ⟨17, 5, 100, 7, 100⟩) ⟨33, 33⟩ 0 0 20
  ⟨by decide, by decide, t.1 (by decide), t.2 (by decide)⟩

/-! ### Round trips -/

theorem hTrackRight_offset (c : Constants) (s : State) (i wi : Nat)
    (hW : isInt16 (visibleTrackWidth c (s.w.widgets wi) (s.w.scroll_areas i)))
    (hM : isInt16 ((s.w.scroll_areas i).contentWidth -
      visibleTrackWidth c (s.w.widgets wi) (s.w.scroll_areas i)))
    (hs : isInt16 ((s.w.scroll_areas i).contentOffsetX +
      visibleTrackWidth c (s.w.widgets wi) (s.w.scroll_areas i))) :
    ((hTrackRight c s i wi).w.scroll_areas i).contentOffsetX =
      min ((s.w.scroll_areas i).contentOffsetX +
          visibleTrackWidth c (s.w.widgets wi) (s.w.scroll_areas i))
        (maxOffsetX c (s.w.widgets wi) (s.w.scroll_areas i)) := by
  rw [hTrackRight_area, stepTrackWidth_eq c _ _ hW.1 hW.2]
  unfold maxOffsetX
  generalize visibleTrackWidth c (s.w.widgets wi) (s.w.scroll_areas i) = W at *
  unfold isInt16 at *
  unfold toInt16
  simp only [max_def, min_def]
  split_ifs <;> omega

theorem hButtonLeft_frame (c : Constants) (s : State) (i wi : Nat) :
    (hButtonLeft c s i wi).w.widgets = s.w.widgets ∧
    ((hButtonLeft c s i wi).w.scroll_areas i).contentWidth = (s.w.scroll_areas i).contentWidth ∧
    visibleTrackWidth c (s.w.widgets wi) ((hButtonLeft c s i wi).w.scroll_areas i) =
      visibleTrackWidth c (s.w.widgets wi) (s.w.scroll_areas i) := by
  refine ⟨rfl, ?_, ?_⟩
  · rw [hButtonLeft_area]
  · rw [hButtonLeft_area]
    simp [visibleTrackWidth, or_and_of_disjoint _ 4 16 (by decide)]

theorem hTrackLeft_frame (c : Constants) (s : State) (i wi : Nat) :
    (hTrackLeft c s i wi).w.widgets = s.w.widgets ∧
    ((hTrackLeft c s i wi).w.scroll_areas i).contentWidth = (s.w.scroll_areas i).contentWidth ∧
    visibleTrackWidth c (s.w.widgets wi) ((hTrackLeft c s i wi).w.scroll_areas i) =
      visibleTrackWidth c (s.w.widgets wi) (s.w.scroll_areas i) := by
  refine ⟨rfl, ?_, ?_⟩
  · rw [hTrackLeft_area]
  · rw [hTrackLeft_area]
    simp [visibleTrackWidth]

/-- C7 (amended): for a widget whose visible track width `W` lies in [0, 32767]
and a scroll area whose content width lies in [0, 32767] and whose
`contentOffsetX = o` is in `[0, M]`, `M = max(0, contentWidth - W)`: if `o = 0`,
`o = M` or `o >= buttonClickStep` (the step being at most 32767), then
`hButtonLeft` followed by at most one press of `hButtonRight` returns
`contentOffsetX` to `o`; and if `o = 0`, `o = M` or `o >= W`, then `hTrackLeft`
followed by at most one press of `hTrackRight` returns `contentOffsetX` to `o`. -/
theorem bounded_round_trip (c : Constants) (s : State) (i wi : Nat)
    (hW0 : 0 ≤ visibleTrackWidth c (s.w.widgets wi) (s.w.scroll_areas i))
    (hW1 : visibleTrackWidth c (s.w.widgets wi) (s.w.scroll_areas i) ≤ 32767)
    (hc0 : 0 ≤ (s.w.scroll_areas i).contentWidth) (hc1 : (s.w.scroll_areas i).contentWidth ≤ 32767)
    (h : s.xInRange c i wi) :
    (c.buttonClickStep ≤ 32767 →
      ((s.w.scroll_areas i).contentOffsetX = 0 ∨
        (s.w.scroll_areas i).contentOffsetX = maxOffsetX c (s.w.widgets wi) (s.w.scroll_areas i) ∨
        (c.buttonClickStep : Int) ≤ (s.w.scroll_areas i).contentOffsetX) →
      ∃ n, n ≤ 1 ∧
        (((fun t => hButtonRight c t i wi)^[n] (hButtonLeft c s i wi)).w.scroll_areas
          i).contentOffsetX = (s.w.scroll_areas i).contentOffsetX) ∧
    (((s.w.scroll_areas i).contentOffsetX = 0 ∨
        (s.w.scroll_areas i).contentOffsetX = maxOffsetX c (s.w.widgets wi) (s.w.scroll_areas i) ∨
        visibleTrackWidth c (s.w.widgets wi) (s.w.scroll_areas i) ≤
          (s.w.scroll_areas i).contentOffsetX) →
      ∃ n, n ≤ 1 ∧
        (((fun t => hTrackRight c t i wi)^[n] (hTrackLeft c s i wi)).w.scroll_areas
          i).contentOffsetX = (s.w.scroll_areas i).contentOffsetX) := by
  have hr : 0 ≤ (s.w.scroll_areas i).contentOffsetX ∧
      (s.w.scroll_areas i).contentOffsetX ≤ maxOffsetX c (s.w.widgets wi) (s.w.scroll_areas i) := h
  have ho : (s.w.scroll_areas i).contentOffsetX ≤ 32767 := by
    have h2 := hr.2
    unfold maxOffsetX at h2
    simp only [max_def] at h2
    split_ifs at h2 <;> omega
  constructor
  · intro hs hcase
    obtain ⟨fw, fcw, fvt⟩ := hButtonLeft_frame c s i wi
    have hleft : ((hButtonLeft c s i wi).w.scroll_areas i).contentOffsetX =
        toInt16 (max ((s.w.scroll_areas i).contentOffsetX - c.buttonClickStep) 0) := by
      rw [hButtonLeft_area]
    by_cases hz : (s.w.scroll_areas i).contentOffsetX = 0
    · refine ⟨0, by omega, ?_⟩
      rw [Function.iterate_zero, id_eq, hleft, hz]
      unfold toInt16; simp only [max_def]; split_ifs <;> omega
    · refine ⟨1, le_refl 1, ?_⟩
      rw [Function.iterate_one, hButtonRight_offset c _ i wi
        (by rw [fw, fvt]; exact ⟨by omega, hW1⟩)
        (by rw [fw, fvt, fcw]; exact ⟨by omega, by omega⟩)
        (by rw [hleft]; unfold toInt16; simp only [max_def]; split_ifs <;> omega)
        (by rw [hleft]; unfold maxOffsetX at hr; unfold toInt16
            simp only [max_def] at *; split_ifs at * <;> omega)]
      rw [hleft, fw]
      unfold maxOffsetX at *
      rw [fvt, fcw]
      generalize visibleTrackWidth c (s.w.widgets wi) (s.w.scroll_areas i) = W at *
      unfold toInt16
      simp only [max_def, min_def] at *
      split_ifs at * <;> omega
  · intro hcase
    obtain ⟨fw, fcw, fvt⟩ := hTrackLeft_frame c s i wi
    have hleft : ((hTrackLeft c s i wi).w.scroll_areas i).contentOffsetX =
        toInt16 (max ((s.w.scroll_areas i).contentOffsetX -
          visibleTrackWidth c (s.w.widgets wi) (s.w.scroll_areas i)) 0) := by
      rw [hTrackLeft_area, stepTrackWidth_eq c _ _ (by omega) hW1]
    by_cases hz : (s.w.scroll_areas i).contentOffsetX = 0
    · refine ⟨0, by omega, ?_⟩
      rw [Function.iterate_zero, id_eq, hleft, hz]
      unfold toInt16; simp only [max_def]; split_ifs <;> omega
    · refine ⟨1, le_refl 1, ?_⟩
      rw [Function.iterate_one, hTrackRight_offset c _ i wi
        (by rw [fw, fvt]; exact ⟨by omega, hW1⟩)
        (by rw [fw, fvt, fcw]; exact ⟨by omega, by omega⟩)
        (by rw [hleft, fw, fvt]; unfold maxOffsetX at hr
            generalize visibleTrackWidth c (s.w.widgets wi) (s.w.scroll_areas i) = W at *
            unfold isInt16 toInt16
            simp only [max_def] at *; split_ifs at * <;> omega)]
      rw [hleft, fw]
      unfold maxOffsetX at *
      rw [fvt, fcw]
      generalize visibleTrackWidth c (s.w.widgets wi) (s.w.scroll_areas i) = W at *
      unfold toInt16
      simp only [max_def, min_def] at *
      split_ifs at * <;> omega


/-- Instance of `bounded_round_trip`: widget width 200, content width 1000,
offset 400. -/
theorem bounded_round_trip_witness :
    (∃ n, n ≤ 1 ∧
      (((fun t => hButtonRight exampleConstants t 0 0)^[n]
        (hButtonLeft exampleConstants (mkState ⟨200, 200⟩ ⟨0, 400, 1000, 0, 1000⟩) 0
          0)).w.scroll_areas 0).contentOffsetX = 400) ∧
    (∃ n, n ≤ 1 ∧
      (((fun t => hTrackRight exampleConstants t 0 0)^[n]
        (hTrackLeft exampleConstants (mkState ⟨200, 200⟩ ⟨0, 400, 1000, 0, 1000⟩) 0
          0)).w.scroll_areas 0).contentOffsetX = 400) :=
  have t := bounded_round_trip exampleConstants (mkState ⟨200, 200⟩ ⟨0, 400, 1000, 0, 1000⟩) 0 0
    (by decide) (by decide) (by decide) (by decide) (by decide)
  ⟨t.1 (by decide) (by decide), t.2 (by decide)⟩

theorem round_trip_button_invariant (n : Nat) :
    ((fun t => hButtonRight exampleConstants t 0 0)^[n]
        (hButtonLeft exampleConstants (mkState ⟨200, 200⟩ ⟨0, 5, 1000, 0, 1000⟩) 0
          0)).stepsFrom 0 10 802 := by
  induction n with
  | zero => unfold State.stepsFrom; decide
  | succ k ih =>
    rw [Function.iterate_succ_apply']
    generalize (fun t => hButtonRight exampleConstants t 0 0)^[k]
      (hButtonLeft exampleConstants (mkState ⟨200, 200⟩ ⟨0, 5, 1000, 0, 1000⟩) 0 0) = t at *
    unfold State.stepsFrom at *
    obtain ⟨hw, hf, hc, h0, h1, hm⟩ := ih
    rw [hButtonRight_area]
    have hw2 : (hButtonRight exampleConstants t 0 0).w.widgets = t.w.widgets := rfl
    rw [hw2, hw]
    have hcap : toInt16 (max (1000 - toInt16 ((200 : Int) - 2)) 0) = 802 := by decide
    have hx : toInt16 ((t.w.scroll_areas 0).contentOffsetX + 10) =
        (t.w.scroll_areas 0).contentOffsetX + 10 :=
      toInt16_of_isInt16 _ ⟨by omega, by omega⟩
    simp only [stepTrackWidth, hf, hc, or_and_of_disjoint _ 8 16 (by decide), exampleConstants,
      Nat.cast_ofNat, ne_eq, not_true_eq_false, if_false, hcap, hx, min_def]
    refine ⟨trivial, trivial, trivial, ?_, ?_, ?_⟩ <;> (split_ifs <;> omega)

theorem round_trip_track_invariant (n : Nat) :
    ((fun t => hTrackRight exampleConstants t 0 0)^[n]
        (hTrackLeft exampleConstants (mkState ⟨200, 200⟩ ⟨0, 5, 1000, 0, 1000⟩) 0
          0)).stepsFrom 0 198 802 := by
  induction n with
  | zero => unfold State.stepsFrom; decide
  | succ k ih =>
    rw [Function.iterate_succ_apply']
    generalize (fun t => hTrackRight exampleConstants t 0 0)^[k]
      (hTrackLeft exampleConstants (mkState ⟨200, 200⟩ ⟨0, 5, 1000, 0, 1000⟩) 0 0) = t at *
    unfold State.stepsFrom at *
    obtain ⟨hw, hf, hc, h0, h1, hm⟩ := ih
    rw [hTrackRight_area]
    have hw2 : (hTrackRight exampleConstants t 0 0).w.widgets = t.w.widgets := rfl
    rw [hw2, hw]
    have hcap : toInt16 (max (1000 - toInt16 ((200 : Int) - 2)) 0) = 802 := by decide
    have htw : toInt16 ((200 : Int) - 2) = 198 := by decide
    have hcap2 : toInt16 (max ((1000 : Int) - 198) 0) = 802 := by decide
    have hx : toInt16 ((t.w.scroll_areas 0).contentOffsetX + 198) =
        (t.w.scroll_areas 0).contentOffsetX + 198 :=
      toInt16_of_isInt16 _ ⟨by omega, by omega⟩
    simp only [stepTrackWidth, hf, hc, exampleConstants,
      Nat.cast_ofNat, ne_eq, not_true_eq_false, if_false, hcap, htw, hcap2, hx, min_def]
    refine ⟨trivial, trivial, trivial, ?_, ?_, ?_⟩ <;> (split_ifs <;> omega)

/-- C7 as stated fails. With widget width 200, content width 1000, no vertical
bar and step 10, the offset 5 is in the valid range [0, 802]; `hButtonLeft`
floors it to 0 and every number of `hButtonRight` presses then lands on a
multiple of 10 or on 802, never on 5; likewise `hTrackLeft` floors it to 0 and
`hTrackRight` presses land on multiples of 198 or on 802. -/
theorem round_trip_counterexample :
    (mkState ⟨200, 200⟩ ⟨0, 5, 1000, 0, 1000⟩).xInRange exampleConstants 0 0 ∧
    (¬ ∃ n, (((fun t => hButtonRight exampleConstants t 0 0)^[n]
        (hButtonLeft exampleConstants (mkState ⟨200, 200⟩ ⟨0, 5, 1000, 0, 1000⟩) 0
          0)).w.scroll_areas 0).contentOffsetX = 5) ∧
    (¬ ∃ n, (((fun t => hTrackRight exampleConstants t 0 0)^[n]
        (hTrackLeft exampleConstants (mkState ⟨200, 200⟩ ⟨0, 5, 1000, 0, 1000⟩) 0
          0)).w.scroll_areas 0).contentOffsetX = 5) := by
  refine ⟨by decide, ?_, ?_⟩
  · rintro ⟨n, hn⟩
    have h := round_trip_button_invariant n
    unfold State.stepsFrom at h
    omega
  · rintro ⟨n, hn⟩
    have h := round_trip_track_invariant n
    unfold State.stepsFrom at h
    omega

/-! ### Press -/

theorem index_of_offset (sz edx : Nat) (hsz : 0 < sz) (hedx : edx < 4294967296) :
    toUInt32 (edx / sz * sz) / sz = edx / sz := by
  have h1 : edx / sz * sz ≤ edx := Nat.div_mul_le_self edx sz
  unfold toUInt32
  rw [Nat.mod_eq_of_lt (by omega), Nat.mul_div_cancel _ hsz]

theorem scrollLeftBegin_session (c : Constants) (env : Env) (x y : Int) (s : State)
    (widget : widget_t) (wi : Nat) :
    (scrollLeftBegin c env x y s widget wi)._currentScrollArea =
      (getPart c env s.w widget x y).output_scroll_area ∧
    (scrollLeftBegin c env x y s widget wi)._currentScrollOffset =
      toUInt32 ((getPart c env s.w widget x y).scrollIndex * c.sizeof_scroll_area_t) := by
  unfold scrollLeftBegin
  generalize getPart c env s.w widget x y = r
  cases hp : r.output_scroll_area <;> simp [hp] <;> constructor <;> rfl


/-- C8: press (`scrollLeftBegin`). For every hit-test result (part `p`, scroll
index `i`, the byte offset being a 32-bit register value), after the call the
engaged session is `(p, i)`; when `p` is a button or a track the window and the
calls made are those of exactly the matching step handler applied to scroll
area `i`; when `p` is `view` the content-press callback is invoked with the
hit-test's content-local coordinate and `i` (an index the callback's `uint8_t`
parameter carries, `i < 256`) and the window is unchanged; when `p` is a thumb
or `none` the window is unchanged and no call is made. -/
theorem scrollLeftBegin_dispatch (c : Constants) (env : Env) (x y : Int) (s : State)
    (widget : widget_t) (wi : Nat) (hsz : 0 < c.sizeof_scroll_area_t)
    (hedx : (env.call_004C8EF0 s.w widget x y).edx < 4294967296) :
    ((scrollLeftBegin c env x y s widget wi)._currentScrollArea =
        (getPart c env s.w widget x y).output_scroll_area ∧
      getCurrentScrollIndex c (scrollLeftBegin c env x y s widget wi) =
        (getPart c env s.w widget x y).scrollIndex) ∧
    ((getPart c env s.w widget x y).output_scroll_area = scroll_part.hscrollbar_button_left →
      (scrollLeftBegin c env x y s widget wi).w =
        (hButtonLeft c s (getPart c env s.w widget x y).scrollIndex wi).w ∧
      (scrollLeftBegin c env x y s widget wi).log =
        (hButtonLeft c s (getPart c env s.w widget x y).scrollIndex wi).log) ∧
    ((getPart c env s.w widget x y).output_scroll_area = scroll_part.hscrollbar_button_right →
      (scrollLeftBegin c env x y s widget wi).w =
        (hButtonRight c s (getPart c env s.w widget x y).scrollIndex wi).w ∧
      (scrollLeftBegin c env x y s widget wi).log =
        (hButtonRight c s (getPart c env s.w widget x y).scrollIndex wi).log) ∧
    ((getPart c env s.w widget x y).output_scroll_area = scroll_part.hscrollbar_track_left →
      (scrollLeftBegin c env x y s widget wi).w =
        (hTrackLeft c s (getPart c env s.w widget x y).scrollIndex wi).w ∧
      (scrollLeftBegin c env x y s widget wi).log =
        (hTrackLeft c s (getPart c env s.w widget x y).scrollIndex wi).log) ∧
    ((getPart c env s.w widget x y).output_scroll_area = scroll_part.hscrollbar_track_right →
      (scrollLeftBegin c env x y s widget wi).w =
        (hTrackRight c s (getPart c env s.w widget x y).scrollIndex wi).w ∧
      (scrollLeftBegin c env x y s widget wi).log =
        (hTrackRight c s (getPart c env s.w widget x y).scrollIndex wi).log) ∧
    ((getPart c env s.w widget x y).output_scroll_area = scroll_part.vscrollbar_button_top →
      (scrollLeftBegin c env x y s widget wi).w =
        (vButtonTop c s (getPart c env s.w widget x y).scrollIndex wi).w ∧
      (scrollLeftBegin c env x y s widget wi).log =
        (vButtonTop c s (getPart c env s.w widget x y).scrollIndex wi).log) ∧
    ((getPart c env s.w widget x y).output_scroll_area = scroll_part.vscrollbar_button_bottom →
      (scrollLeftBegin c env x y s widget wi).w =
        (vButtonBottom c s (getPart c env s.w widget x y).scrollIndex wi).w ∧
      (scrollLeftBegin c env x y s widget wi).log =
        (vButtonBottom c s (getPart c env s.w widget x y).scrollIndex wi).log) ∧
    ((getPart c env s.w widget x y).output_scroll_area = scroll_part.vscrollbar_track_top →
      (scrollLeftBegin c env x y s widget wi).w =
        (vTrackTop c s (getPart c env s.w widget x y).scrollIndex wi).w ∧
      (scrollLeftBegin c env x y s widget wi).log =
        (vTrackTop c s (getPart c env s.w widget x y).scrollIndex wi).log) ∧
    ((getPart c env s.w widget x y).output_scroll_area = scroll_part.vscrollbar_track_bottom →
      (scrollLeftBegin c env x y s widget wi).w =
        (vTrackBottom c s (getPart c env s.w widget x y).scrollIndex wi).w ∧
      (scrollLeftBegin c env x y s widget wi).log =
        (vTrackBottom c s (getPart c env s.w widget x y).scrollIndex wi).log) ∧
    ((getPart c env s.w widget x y).output_scroll_area = scroll_part.view →
      (getPart c env s.w widget x y).scrollIndex < 256 →
      (scrollLeftBegin c env x y s widget wi).w = s.w ∧
      (scrollLeftBegin c env x y s widget wi).log =
        s.log ++ [Call.callScrollMouseDown (getPart c env s.w widget x y).output_x
          (getPart c env s.w widget x y).output_y
          (getPart c env s.w widget x y).scrollIndex]) ∧
    ((getPart c env s.w widget x y).output_scroll_area = scroll_part.hscrollbar_thumb ∨
        (getPart c env s.w widget x y).output_scroll_area = scroll_part.vscrollbar_thumb ∨
        (getPart c env s.w widget x y).output_scroll_area = scroll_part.none →
      (scrollLeftBegin c env x y s widget wi).w = s.w ∧
      (scrollLeftBegin c env x y s widget wi).log = s.log) := by
  refine ⟨⟨(scrollLeftBegin_session c env x y s widget wi).1, ?_⟩, ?_⟩
  · unfold getCurrentScrollIndex
    rw [(scrollLeftBegin_session c env x y s widget wi).2]
    exact index_of_offset _ _ hsz hedx
  · unfold scrollLeftBegin
    generalize getPart c env s.w widget x y = r at *
    refine ⟨?_, ?_, ?_, ?_, ?_, ?_, ?_, ?_, ?_, ?_⟩
    all_goals intro hp
    · simp only [hp]; exact ⟨rfl, rfl⟩
    · simp only [hp]; exact ⟨rfl, rfl⟩
    · simp only [hp]; exact ⟨rfl, rfl⟩
    · simp only [hp]; exact ⟨rfl, rfl⟩
    · simp only [hp]; exact ⟨rfl, rfl⟩
    · simp only [hp]; exact ⟨rfl, rfl⟩
    · simp only [hp]; exact ⟨rfl, rfl⟩
    · simp only [hp]; exact ⟨rfl, rfl⟩
    · intro hidx
      have h8 : toUInt8 r.scrollIndex = r.scrollIndex := Nat.mod_eq_of_lt hidx
      simp only [hp]
      refine ⟨rfl, ?_⟩
      show s.log ++ [Call.callScrollMouseDown r.output_x r.output_y (toUInt8 r.scrollIndex)] = _
      rw [h8]
    · rcases hp with hp | hp | hp <;> simp only [hp] <;> exact ⟨rfl, rfl⟩

/-- Instance of `scrollLeftBegin_dispatch`: when the hit test answers
`hscrollbar-button-right` with byte offset 18 (scroll area 1), the session
becomes that part and index 1, and the offset of scroll area 1 moves from 0 to
10 as under `hButtonRight`; when it answers `view` at content coordinate (3, 4)
in scroll area 1, the callback is invoked with (3, 4) and index 1. -/
theorem scrollLeftBegin_dispatch_witness :
    (scrollLeftBegin exampleConstants
        (exampleEnv ⟨3, 4, scroll_part.hscrollbar_button_right, 18⟩) 50 60
        (mkState ⟨200, 200⟩ ⟨0, 0, 1000, 0, 1000⟩) ⟨200, 200⟩ 0)._currentScrollArea =
      scroll_part.hscrollbar_button_right ∧
    getCurrentScrollIndex exampleConstants (scrollLeftBegin exampleConstants
        (exampleEnv ⟨3, 4, scroll_part.hscrollbar_button_right, 18⟩) 50 60
        (mkState ⟨200, 200⟩ ⟨0, 0, 1000, 0, 1000⟩) ⟨200, 200⟩ 0) = 1 ∧
    (scrollLeftBegin exampleConstants
        (exampleEnv ⟨3, 4, scroll_part.hscrollbar_button_right, 18⟩) 50 60
        (mkState ⟨200, 200⟩ ⟨0, 0, 1000, 0, 1000⟩) ⟨200, 200⟩ 0).w =
      (hButtonRight exampleConstants (mkState ⟨200, 200⟩ ⟨0, 0, 1000, 0, 1000⟩) 1 0).w ∧
    ((hButtonRight exampleConstants (mkState ⟨200, 200⟩ ⟨0, 0, 1000, 0, 1000⟩) 1
      0).w.scroll_areas 1).contentOffsetX = 10 ∧
    (scrollLeftBegin exampleConstants (exampleEnv ⟨3, 4, scroll_part.view, 18⟩) 50 60
      (mkState ⟨200, 200⟩ ⟨0, 0, 1000, 0, 1000⟩) ⟨200, 200⟩ 0).log =
      [Call.callScrollMouseDown 3 4 1] :=
  have t := scrollLeftBegin_dispatch exampleConstants
    (exampleEnv ⟨3, 4, scroll_part.hscrollbar_button_right, 18⟩) 50 60
    (mkState ⟨200, 200⟩ ⟨0, 0, 1000, 0, 1000⟩) ⟨200, 200⟩ 0 (by decide) (by decide)
  have tv := scrollLeftBegin_dispatch exampleConstants
    (exampleEnv ⟨3, 4, scroll_part.view, 18⟩) 50 60
    (mkState ⟨200, 200⟩ ⟨0, 0, 1000, 0, 1000⟩) ⟨200, 200⟩ 0 (by decide) (by decide)
  ⟨t.1.1, t.1.2, (t.2.2.1 rfl).1, by decide,
    (tv.2.2.2.2.2.2.2.2.2.1 rfl (by decide)).2⟩

/-! ### Continue -/

/-- C9 (amended): continue (`scrollLeftContinue`) with a non-thumb engaged part.
Whenever the part hit-tested at the current coordinate equals the engaged part:
if that part is one of the four buttons, the state after the event is the
result of applying the matching step handler (`hButtonLeft`, `hButtonRight`,
`vButtonTop`, `vButtonBottom`) once to the hit-tested scroll area; if it is one
of the four tracks, the event returns the state unchanged (no step handler
runs). -/
theorem scrollLeftContinue_same_part (c : Constants) (env : Env) (x y : Int) (s : State)
    (widget : widget_t) (wi : Nat)
    (hsame : (getPart c env s.w widget x y).output_scroll_area = s._currentScrollArea) :
    (s._currentScrollArea = scroll_part.hscrollbar_button_left →
      scrollLeftContinue c env x y s widget wi =
        some (hButtonLeft c s (getPart c env s.w widget x y).scrollIndex wi)) ∧
    (s._currentScrollArea = scroll_part.hscrollbar_button_right →
      scrollLeftContinue c env x y s widget wi =
        some (hButtonRight c s (getPart c env s.w widget x y).scrollIndex wi)) ∧
    (s._currentScrollArea = scroll_part.vscrollbar_button_top →
      scrollLeftContinue c env x y s widget wi =
        some (vButtonTop c s (getPart c env s.w widget x y).scrollIndex wi)) ∧
    (s._currentScrollArea = scroll_part.vscrollbar_button_bottom →
      scrollLeftContinue c env x y s widget wi =
        some (vButtonBottom c s (getPart c env s.w widget x y).scrollIndex wi)) ∧
    (s._currentScrollArea = scroll_part.hscrollbar_track_left ∨
        s._currentScrollArea = scroll_part.hscrollbar_track_right ∨
        s._currentScrollArea = scroll_part.vscrollbar_track_top ∨
        s._currentScrollArea = scroll_part.vscrollbar_track_bottom →
      scrollLeftContinue c env x y s widget wi = some s) := by
  unfold scrollLeftContinue
  generalize getPart c env s.w widget x y = r at *
  refine ⟨?_, ?_, ?_, ?_, ?_⟩
  · intro he; simp [he, hsame]
  · intro he; simp [he, hsame]
  · intro he; simp [he, hsame]
  · intro he; simp [he, hsame]
  · intro he; rcases he with he | he | he | he <;> simp [he, hsame]

/-- Instance of `scrollLeftContinue_same_part`: the right button is engaged and
the hit test answers the right button again; the event is one more
`hButtonRight` step. -/
theorem scrollLeftContinue_same_part_witness :
    scrollLeftContinue exampleConstants
        (exampleEnv ⟨0, 0, scroll_part.hscrollbar_button_right, 0⟩) 50 60
        (mkEngaged ⟨200, 200⟩ ⟨0, 0, 1000, 0, 1000⟩ scroll_part.hscrollbar_button_right 0)
        ⟨200, 200⟩ 0 =
      some (hButtonRight exampleConstants
        (mkEngaged ⟨200, 200⟩ ⟨0, 0, 1000, 0, 1000⟩ scroll_part.hscrollbar_button_right 0)
        (getPart exampleConstants (exampleEnv ⟨0, 0, scroll_part.hscrollbar_button_right, 0⟩)
          (mkEngaged ⟨200, 200⟩ ⟨0, 0, 1000, 0, 1000⟩ scroll_part.hscrollbar_button_right 0).w
          ⟨200, 200⟩ 50 60).scrollIndex 0) :=
  (scrollLeftContinue_same_part exampleConstants
    (exampleEnv ⟨0, 0, scroll_part.hscrollbar_button_right, 0⟩) 50 60
    (mkEngaged ⟨200, 200⟩ ⟨0, 0, 1000, 0, 1000⟩ scroll_part.hscrollbar_button_right 0)
    ⟨200, 200⟩ 0 rfl).2.1 rfl

/-- C9 as stated fails for tracks: with `hscrollbar-track-left` engaged, the hit
test answering `hscrollbar-track-left` again, widget width 152 and offset 200,
`hTrackLeft` would store 50, but the continue event leaves the offset at 200 and
makes no call. -/
theorem scrollLeftContinue_track_counterexample :
    ((hTrackLeft exampleConstants
      (mkEngaged ⟨152, 152⟩ ⟨0, 200, 1000, 0, 1000⟩ scroll_part.hscrollbar_track_left 0) 0
      0).w.scroll_areas 0).contentOffsetX = 50 ∧
    (scrollLeftContinue exampleConstants
      (exampleEnv ⟨0, 0, scroll_part.hscrollbar_track_left, 0⟩) 50 60
      (mkEngaged ⟨152, 152⟩ ⟨0, 200, 1000, 0, 1000⟩ scroll_part.hscrollbar_track_left 0)
      ⟨152, 152⟩ 0).map (fun s' => ((s'.w.scroll_areas 0).contentOffsetX, s'.log)) =
      some (200, []) := by
  decide

/-! ### Abort of a continue event -/

theorem clearMask16_and (f m b : Nat) (h : (65535 ^^^ m) &&& b = 0) :
    clearMask16 f m &&& b = 0 := by
  unfold clearMask16
  rw [Nat.and_assoc, h, Nat.and_zero]

theorem clearMask16_noPressedFlag (f : Nat) :
    noPressedFlag (clearMask16 f (verticalFlags ||| horizontalFlags)) := by
  unfold noPressedFlag
  refine ⟨?_, ?_, ?_, ?_, ?_, ?_⟩ <;> exact clearMask16_and _ _ _ (by decide)

theorem clearPressedButtons_found (c : Constants) (env : Env) (s : State)
    (type number wi : Nat) (hfind : env.find type number = true) :
    clearPressedButtons c env s type number wi =
      invalidateWidget
        (s.setArea (getCurrentScrollIndex c s)
          { s.w.scroll_areas (getCurrentScrollIndex c s) with
            flags := clearMask16 (s.w.scroll_areas (getCurrentScrollIndex c s)).flags
              (verticalFlags ||| horizontalFlags) })
        type number wi := by
  unfold clearPressedButtons
  simp [hfind]

/-- C10: continue (`scrollLeftContinue`) abort. For every engaged non-thumb part
and every hit-test result whose part differs from it, provided the window is
found, the event returns a state in which all six pressed flags of the engaged
scroll area are clear, `contentOffsetX` and `contentOffsetY` of every scroll
area are unchanged, and the only call made is the redraw request of
`clearPressedButtons`: no step handler (no thumb refresh) and no content
callback. -/
theorem scrollLeftContinue_abort (c : Constants) (env : Env) (x y : Int) (s : State)
    (widget : widget_t) (wi : Nat)
    (hh : s._currentScrollArea ≠ scroll_part.hscrollbar_thumb)
    (hv : s._currentScrollArea ≠ scroll_part.vscrollbar_thumb)
    (hdiff : (getPart c env s.w widget x y).output_scroll_area ≠ s._currentScrollArea)
    (hfind : env.find s.w.type s.w.number = true) :
    ∃ s', scrollLeftContinue c env x y s widget wi = some s' ∧
      noPressedFlag (s'.w.scroll_areas (getCurrentScrollIndex c s)).flags ∧
      sameOffsets s s' ∧
      s'.log = s.log ++ [Call.invalidateWidget s.w.type s.w.number wi] := by
  refine ⟨clearPressedButtons c env s s.w.type s.w.number wi, ?_, ?_, ?_, ?_⟩
  · unfold scrollLeftContinue
    simp [hh, hv, hdiff]
  · rw [clearPressedButtons_found c env s _ _ wi hfind]
    simp only [invalidateWidget, State.call, State.setArea, Function.update_same]
    exact clearMask16_noPressedFlag _
  · rw [clearPressedButtons_found c env s _ _ wi hfind]
    exact sameOffsets_setFlags s _ _
  · rw [clearPressedButtons_found c env s _ _ wi hfind]
    rfl

/-- Instance of `scrollLeftContinue_abort`, the scenario of the specification:
`view` is engaged and the hit test now answers `hscrollbar-button-left`, with
every flag bit of the scroll area set (255) beforehand. -/
theorem scrollLeftContinue_abort_witness :
    ∃ s', scrollLeftContinue exampleConstants
        (exampleEnv ⟨0, 0, scroll_part.hscrollbar_button_left, 0⟩) 50 60
        (mkEngaged ⟨200, 200⟩ ⟨255, 40, 1000, 30, 1000⟩ scroll_part.view 0) ⟨200, 200⟩ 0 =
        some s' ∧
      noPressedFlag (s'.w.scroll_areas (getCurrentScrollIndex exampleConstants
        (mkEngaged ⟨200, 200⟩ ⟨255, 40, 1000, 30, 1000⟩ scroll_part.view 0))).flags ∧
      sameOffsets (mkEngaged ⟨200, 200⟩ ⟨255, 40, 1000, 30, 1000⟩ scroll_part.view 0) s' ∧
      s'.log = (mkEngaged ⟨200, 200⟩ ⟨255, 40, 1000, 30, 1000⟩ scroll_part.view 0).log ++
        [Call.invalidateWidget
          (mkEngaged ⟨200, 200⟩ ⟨255, 40, 1000, 30, 1000⟩ scroll_part.view 0).w.type
          (mkEngaged ⟨200, 200⟩ ⟨255, 40, 1000, 30, 1000⟩ scroll_part.view 0).w.number 0] :=
  scrollLeftContinue_abort exampleConstants
    (exampleEnv ⟨0, 0, scroll_part.hscrollbar_button_left, 0⟩) 50 60
    (mkEngaged ⟨200, 200⟩ ⟨255, 40, 1000, 30, 1000⟩ scroll_part.view 0) ⟨200, 200⟩ 0
    (by decide) (by decide) (by decide) (by decide)

/-! ### The session after an abort or a release -/

theorem clearPressedButtons_session (c : Constants) (env : Env) (s : State)
    (type number wi : Nat) :
    (clearPressedButtons c env s type number wi)._currentScrollArea = s._currentScrollArea ∧
    (clearPressedButtons c env s type number wi)._currentScrollOffset =
      s._currentScrollOffset := by
  unfold clearPressedButtons
  split_ifs <;> exact ⟨rfl, rfl⟩

/-- C11 (amended): neither an abort nor a release ends the session. A continue
event whose hit-tested part differs from the engaged non-thumb part is exactly
`clearPressedButtons`, and `clearPressedButtons` (found window or not) leaves
the engaged part and the stored scroll-area offset as they were. A further
continue event is therefore dispatched on the originally engaged part: when the
cursor is back over that part, an engaged button runs its step handler again,
and an engaged `view` invokes the content drag callback. -/
theorem session_survives_abort_and_release (c : Constants) (env : Env) (x y x2 y2 : Int)
    (s : State) (widget : widget_t) (wi : Nat) :
    (s._currentScrollArea ≠ scroll_part.hscrollbar_thumb →
      s._currentScrollArea ≠ scroll_part.vscrollbar_thumb →
      (getPart c env s.w widget x y).output_scroll_area ≠ s._currentScrollArea →
      scrollLeftContinue c env x y s widget wi =
        some (clearPressedButtons c env s s.w.type s.w.number wi)) ∧
    (∀ type number,
      (clearPressedButtons c env s type number wi)._currentScrollArea = s._currentScrollArea ∧
      (clearPressedButtons c env s type number wi)._currentScrollOffset =
        s._currentScrollOffset ∧
      ((getPart c env (clearPressedButtons c env s type number wi).w widget x2
          y2).output_scroll_area = s._currentScrollArea →
        (s._currentScrollArea = scroll_part.hscrollbar_button_left →
          scrollLeftContinue c env x2 y2 (clearPressedButtons c env s type number wi) widget wi =
            some (hButtonLeft c (clearPressedButtons c env s type number wi)
              (getPart c env (clearPressedButtons c env s type number wi).w widget x2
                y2).scrollIndex wi)) ∧
        (s._currentScrollArea = scroll_part.hscrollbar_button_right →
          scrollLeftContinue c env x2 y2 (clearPressedButtons c env s type number wi) widget wi =
            some (hButtonRight c (clearPressedButtons c env s type number wi)
              (getPart c env (clearPressedButtons c env s type number wi).w widget x2
                y2).scrollIndex wi)) ∧
        (s._currentScrollArea = scroll_part.vscrollbar_button_top →
          scrollLeftContinue c env x2 y2 (clearPressedButtons c env s type number wi) widget wi =
            some (vButtonTop c (clearPressedButtons c env s type number wi)
              (getPart c env (clearPressedButtons c env s type number wi).w widget x2
                y2).scrollIndex wi)) ∧
        (s._currentScrollArea = scroll_part.vscrollbar_button_bottom →
          scrollLeftContinue c env x2 y2 (clearPressedButtons c env s type number wi) widget wi =
            some (vButtonBottom c (clearPressedButtons c env s type number wi)
              (getPart c env (clearPressedButtons c env s type number wi).w widget x2
                y2).scrollIndex wi)) ∧
        (s._currentScrollArea = scroll_part.view →
          scrollLeftContinue c env x2 y2 (clearPressedButtons c env s type number wi) widget wi =
            some ((clearPressedButtons c env s type number wi).call
              (Call.callScrollMouseDrag
                (getPart c env (clearPressedButtons c env s type number wi).w widget x2
                  y2).output_x
                (getPart c env (clearPressedButtons c env s type number wi).w widget x2
                  y2).output_y
                (toUInt8 (getPart c env (clearPressedButtons c env s type number wi).w widget x2
                  y2).scrollIndex)))))) := by
  constructor
  · intro hh hv hdiff
    unfold scrollLeftContinue
    simp [hh, hv, hdiff]
  · intro type number
    obtain ⟨ha, ho⟩ := clearPressedButtons_session c env s type number wi
    refine ⟨ha, ho, ?_⟩
    generalize clearPressedButtons c env s type number wi = t at *
    intro hsame
    rw [← ha] at hsame
    unfold scrollLeftContinue
    generalize getPart c env t.w widget x2 y2 = r at *
    refine ⟨?_, ?_, ?_, ?_, ?_⟩ <;> intro he <;> rw [← ha] at he <;> simp [he, hsame]


/-- Instance of `session_survives_abort_and_release`: the left button is engaged,
the cursor leaves it (hit test `view` at x = 150) and comes back (x = 50); the
second event is a `hButtonLeft` step on the state the abort left behind. -/
theorem session_survives_abort_and_release_witness :
    scrollLeftContinue exampleConstants exampleEnvByX 150 50
        (mkEngaged ⟨200, 200⟩ ⟨4, 400, 1000, 0, 1000⟩ scroll_part.hscrollbar_button_left 0)
        ⟨200, 200⟩ 0 =
      some (clearPressedButtons exampleConstants exampleEnvByX
        (mkEngaged ⟨200, 200⟩ ⟨4, 400, 1000, 0, 1000⟩ scroll_part.hscrollbar_button_left 0)
        0 0 0) ∧
    scrollLeftContinue exampleConstants exampleEnvByX 50 50
        (clearPressedButtons exampleConstants exampleEnvByX
          (mkEngaged ⟨200, 200⟩ ⟨4, 400, 1000, 0, 1000⟩ scroll_part.hscrollbar_button_left 0)
          0 0 0) ⟨200, 200⟩ 0 =
      some (hButtonLeft exampleConstants
        (clearPressedButtons exampleConstants exampleEnvByX
          (mkEngaged ⟨200, 200⟩ ⟨4, 400, 1000, 0, 1000⟩ scroll_part.hscrollbar_button_left 0)
          0 0 0) 0 0) :=
  have t := session_survives_abort_and_release exampleConstants exampleEnvByX 150 50 50 50
    (mkEngaged ⟨200, 200⟩ ⟨4, 400, 1000, 0, 1000⟩ scroll_part.hscrollbar_button_left 0)
    ⟨200, 200⟩ 0
  ⟨t.1 (by decide) (by decide) (by decide), ((t.2 0 0).2.2 (by decide)).1 rfl⟩

/-- C11 as stated fails. With the left button engaged at offset 400 (step 10), a
continue event over `view` aborts (flags cleared, offset still 400); the next
continue event, with the cursor back over the left button and no press in
between, runs `hButtonLeft`: the offset becomes 390, the pressed flag is set
again and the thumb refresh and redraw calls are made. The same happens when
the first event is a release (`clearPressedButtons`). -/
theorem session_end_counterexample :
    (scrollLeftContinue exampleConstants exampleEnvByX 150 50
        (mkEngaged ⟨200, 200⟩ ⟨4, 400, 1000, 0, 1000⟩ scroll_part.hscrollbar_button_left 0)
        ⟨200, 200⟩ 0).map
      (fun s1 => ((s1.w.scroll_areas 0).contentOffsetX, (s1.w.scroll_areas 0).flags, s1.log)) =
      some (400, 0, [Call.invalidateWidget 0 0 0]) ∧
    ((scrollLeftContinue exampleConstants exampleEnvByX 150 50
        (mkEngaged ⟨200, 200⟩ ⟨4, 400, 1000, 0, 1000⟩ scroll_part.hscrollbar_button_left 0)
        ⟨200, 200⟩ 0).bind
      (fun s1 => scrollLeftContinue exampleConstants exampleEnvByX 50 50 s1 ⟨200, 200⟩ 0)).map
      (fun s2 => ((s2.w.scroll_areas 0).contentOffsetX, (s2.w.scroll_areas 0).flags, s2.log)) =
      some (390, 4, [Call.invalidateWidget 0 0 0, Call.updateThumbs 0,
        Call.invalidateWidget 0 0 0]) ∧
    (scrollLeftContinue exampleConstants exampleEnvByX 50 50
        (clearPressedButtons exampleConstants exampleEnvByX
          (mkEngaged ⟨200, 200⟩ ⟨4, 400, 1000, 0, 1000⟩ scroll_part.hscrollbar_button_left 0)
          0 0 0) ⟨200, 200⟩ 0).map
      (fun s2 => ((s2.w.scroll_areas 0).contentOffsetX, (s2.w.scroll_areas 0).flags, s2.log)) =
      some (390, 4, [Call.invalidateWidget 0 0 0, Call.updateThumbs 0,
        Call.invalidateWidget 0 0 0]) := by
  decide

/-! ### Release -/

theorem clearMask16_testBit (f m k : Nat) (hf : f < 65536) (hk : Nat.testBit m k = false) :
    Nat.testBit (clearMask16 f m) k = Nat.testBit f k := by
  unfold clearMask16
  rw [Nat.testBit_and, Nat.testBit_xor, hk]
  have h16 : (65535 : Nat) = 2 ^ 16 - 1 := by norm_num
  rw [h16, Nat.testBit_two_pow_sub_one]
  by_cases hlt : k < 16
  · simp [hlt]
  · have hfk : Nat.testBit f k = false := by
      apply Nat.testBit_lt_two_pow
      calc f < 2 ^ 16 := by omega
        _ ≤ 2 ^ k := Nat.pow_le_pow_right (by norm_num) (by omega)
    simp [hfk]

theorem clearMask16_idem (f m : Nat) : clearMask16 (clearMask16 f m) m = clearMask16 f m := by
  unfold clearMask16
  rw [Nat.and_assoc, Nat.and_self]


/-- C12: release (`clearPressedButtons`) when the window is found. Afterwards
all six pressed flags of the currently engaged scroll area are clear, whatever
they were; every other bit of its 16-bit flag word (among them
`HSCROLLBAR_VISIBLE` and `VSCROLLBAR_VISIBLE`), its content sizes and both its
offsets are unchanged, and so is every other scroll area; applying the release
twice leaves the same window and session as applying it once (each application
issues its own redraw request). -/
theorem clearPressedButtons_frame (c : Constants) (env : Env) (s : State)
    (type number wi : Nat) (hfind : env.find type number = true)
    (hflags : (s.w.scroll_areas (getCurrentScrollIndex c s)).flags < 65536) :
    noPressedFlag ((clearPressedButtons c env s type number wi).w.scroll_areas
      (getCurrentScrollIndex c s)).flags ∧
    (∀ k, Nat.testBit pressedMask k = false →
      Nat.testBit ((clearPressedButtons c env s type number wi).w.scroll_areas
          (getCurrentScrollIndex c s)).flags k =
        Nat.testBit (s.w.scroll_areas (getCurrentScrollIndex c s)).flags k) ∧
    (((clearPressedButtons c env s type number wi).w.scroll_areas
          (getCurrentScrollIndex c s)).flags &&& ScrollFlags.HSCROLLBAR_VISIBLE =
        (s.w.scroll_areas (getCurrentScrollIndex c s)).flags &&& ScrollFlags.HSCROLLBAR_VISIBLE ∧
      ((clearPressedButtons c env s type number wi).w.scroll_areas
          (getCurrentScrollIndex c s)).flags &&& ScrollFlags.VSCROLLBAR_VISIBLE =
        (s.w.scroll_areas (getCurrentScrollIndex c s)).flags &&&
          ScrollFlags.VSCROLLBAR_VISIBLE) ∧
    (((clearPressedButtons c env s type number wi).w.scroll_areas
          (getCurrentScrollIndex c s)).contentWidth =
        (s.w.scroll_areas (getCurrentScrollIndex c s)).contentWidth ∧
      ((clearPressedButtons c env s type number wi).w.scroll_areas
          (getCurrentScrollIndex c s)).contentHeight =
        (s.w.scroll_areas (getCurrentScrollIndex c s)).contentHeight ∧
      ((clearPressedButtons c env s type number wi).w.scroll_areas
          (getCurrentScrollIndex c s)).contentOffsetX =
        (s.w.scroll_areas (getCurrentScrollIndex c s)).contentOffsetX ∧
      ((clearPressedButtons c env s type number wi).w.scroll_areas
          (getCurrentScrollIndex c s)).contentOffsetY =
        (s.w.scroll_areas (getCurrentScrollIndex c s)).contentOffsetY) ∧
    (∀ j, j ≠ getCurrentScrollIndex c s →
      (clearPressedButtons c env s type number wi).w.scroll_areas j = s.w.scroll_areas j) ∧
    ((clearPressedButtons c env (clearPressedButtons c env s type number wi) type number wi).w =
        (clearPressedButtons c env s type number wi).w ∧
      (clearPressedButtons c env (clearPressedButtons c env s type number wi) type number
          wi)._currentScrollArea =
        (clearPressedButtons c env s type number wi)._currentScrollArea ∧
      (clearPressedButtons c env (clearPressedButtons c env s type number wi) type number
          wi)._currentScrollOffset =
        (clearPressedButtons c env s type number wi)._currentScrollOffset) := by
  have hidx : getCurrentScrollIndex c (clearPressedButtons c env s type number wi) =
      getCurrentScrollIndex c s := by
    unfold getCurrentScrollIndex
    rw [(clearPressedButtons_session c env s type number wi).2]
  have harea : (clearPressedButtons c env s type number wi).w.scroll_areas
      (getCurrentScrollIndex c s) =
      { s.w.scroll_areas (getCurrentScrollIndex c s) with
        flags := clearMask16 (s.w.scroll_areas (getCurrentScrollIndex c s)).flags pressedMask } := by
    rw [clearPressedButtons_found c env s _ _ wi hfind]
    simp [invalidateWidget, State.call, State.setArea, pressedMask]
  refine ⟨?_, ?_, ⟨?_, ?_⟩, ?_, ?_, ?_, ?_, ?_⟩
  · rw [harea]; exact clearMask16_noPressedFlag _
  · intro k hk
    rw [harea]
    exact clearMask16_testBit _ _ k hflags hk
  · rw [harea]
    show clearMask16 _ _ &&& 1 = _ &&& 1
    unfold clearMask16
    rw [Nat.and_assoc]
    have h1 : (65535 ^^^ pressedMask) &&& 1 = 1 := by decide
    rw [h1]
  · rw [harea]
    show clearMask16 _ _ &&& 16 = _ &&& 16
    unfold clearMask16
    rw [Nat.and_assoc]
    have h1 : (65535 ^^^ pressedMask) &&& 16 = 16 := by decide
    rw [h1]
  · rw [harea]; exact ⟨rfl, rfl, rfl, rfl⟩
  · intro j hj
    rw [clearPressedButtons_found c env s _ _ wi hfind]
    simp [invalidateWidget, State.call, State.setArea, Function.update_noteq hj]
  · rw [clearPressedButtons_found c env (clearPressedButtons c env s type number wi) _ _ wi
      hfind, hidx]
    simp only [invalidateWidget, State.call, State.setArea]
    rw [harea]
    rw [clearPressedButtons_found c env s _ _ wi hfind]
    simp [invalidateWidget, State.call, State.setArea, pressedMask, clearMask16_idem]
  · exact (clearPressedButtons_session c env _ type number wi).1
  · exact (clearPressedButtons_session c env _ type number wi).2

/-- Instance of `clearPressedButtons_frame`: every flag bit of the engaged
scroll area set (255) before the release. -/
theorem clearPressedButtons_frame_witness :
    noPressedFlag ((clearPressedButtons exampleConstants
      (exampleEnv ⟨0, 0, scroll_part.view, 0⟩)
      (mkEngaged ⟨200, 200⟩ ⟨255, 40, 1000, 30, 1000⟩ scroll_part.hscrollbar_button_left 0)
      0 0 0).w.scroll_areas
        (getCurrentScrollIndex exampleConstants
          (mkEngaged ⟨200, 200⟩ ⟨255, 40, 1000, 30, 1000⟩ scroll_part.hscrollbar_button_left
            0))).flags ∧
    ((clearPressedButtons exampleConstants (exampleEnv ⟨0, 0, scroll_part.view, 0⟩)
      (mkEngaged ⟨200, 200⟩ ⟨255, 40, 1000, 30, 1000⟩ scroll_part.hscrollbar_button_left 0)
      0 0 0).w.scroll_areas 0).flags = 17 :=
  ⟨(clearPressedButtons_frame exampleConstants (exampleEnv ⟨0, 0, scroll_part.view, 0⟩)
      (mkEngaged ⟨200, 200⟩ ⟨255, 40, 1000, 30, 1000⟩ scroll_part.hscrollbar_button_left 0)
      0 0 0 (by decide) (by decide)).1, by decide⟩

/-! ### View-only press -/

/-- C13: view-only press (`scrollModalRight`). For every hit-test result the
call leaves the window, and with it every scroll area (offsets, content sizes
and flags), unchanged and makes no thumb-refresh or redraw call, so no step
handler runs; it invokes the content-press callback, with the hit-test's
content-local coordinate and scroll index (an index the callback's `uint8_t`
parameter carries, below 256), when the hit-tested part is `view`, and makes no
call at all otherwise. -/
theorem scrollModalRight_frame (c : Constants) (env : Env) (x y : Int) (s : State)
    (widget : widget_t) (wi : Nat) :
    (scrollModalRight c env x y s widget wi).w = s.w ∧
    ((getPart c env s.w widget x y).output_scroll_area = scroll_part.view →
      (getPart c env s.w widget x y).scrollIndex < 256 →
      (scrollModalRight c env x y s widget wi).log =
        s.log ++ [Call.callScrollMouseDown (getPart c env s.w widget x y).output_x
          (getPart c env s.w widget x y).output_y
          (getPart c env s.w widget x y).scrollIndex]) ∧
    ((getPart c env s.w widget x y).output_scroll_area ≠ scroll_part.view →
      (scrollModalRight c env x y s widget wi).log = s.log) := by
  unfold scrollModalRight
  generalize getPart c env s.w widget x y = r
  dsimp only
  refine ⟨?_, ?_, ?_⟩
  · split_ifs <;> rfl
  · intro h hidx
    have h8 : toUInt8 r.scrollIndex = r.scrollIndex := Nat.mod_eq_of_lt hidx
    rw [if_pos h]
    show s.log ++ [Call.callScrollMouseDown r.output_x r.output_y (toUInt8 r.scrollIndex)] = _
    rw [h8]
  · intro h; rw [if_neg h]; rfl

/-- Instance of `scrollModalRight_frame`: the hit test answers `view` at
content coordinate (3, 4) in scroll area 1, and the callback is invoked with
these. -/
theorem scrollModalRight_frame_witness :
    (scrollModalRight exampleConstants (exampleEnv ⟨3, 4, scroll_part.view, 18⟩) 50 60
      (mkState ⟨200, 200⟩ ⟨0, 0, 1000, 0, 1000⟩) ⟨200, 200⟩ 0).log =
      [Call.callScrollMouseDown 3 4 1] :=
  (scrollModalRight_frame exampleConstants (exampleEnv ⟨3, 4, scroll_part.view, 18⟩) 50 60
    (mkState ⟨200, 200⟩ ⟨0, 0, 1000, 0, 1000⟩) ⟨200, 200⟩ 0).2.1 rfl (by decide)

/-! ### Degenerate track: what the follow handlers still change -/

theorem or_eq_self_of_and_eq (f b : Nat) (h : f &&& b = b) : f ||| b = f := by
  apply Nat.eq_of_testBit_eq
  intro k
  have hk : (f &&& b).testBit k = b.testBit k := by rw [h]
  rw [Nat.testBit_and] at hk
  rw [Nat.testBit_or]
  cases hf : f.testBit k <;> cases hb : b.testBit k <;> simp_all

/-- C15 (amended): when the usable track length computed by the handler is 0,
`horizontalFollow` (`verticalFollow`) returns having changed nothing but the
flag word of the scroll area, in which `HSCROLLBAR_THUMB_PRESSED`
(`VSCROLLBAR_THUMB_PRESSED`) is now set: content sizes, both offsets, every other
scroll area and the list of calls made are unchanged, and the scroll area is
identical before and after when that flag was already set. -/
theorem zero_track_follow_sets_only_thumb_flag (c : Constants) (s : State) (widget : widget_t)
    (wi i : Nat) (d : Int) :
    (followTrackWidth c widget (s.w.scroll_areas i).flags = 0 →
      ∃ s', horizontalFollow c s widget wi i d = some s' ∧
        s'.w.scroll_areas i = { s.w.scroll_areas i with
          flags := (s.w.scroll_areas i).flags ||| ScrollFlags.HSCROLLBAR_THUMB_PRESSED } ∧
        (∀ j, j ≠ i → s'.w.scroll_areas j = s.w.scroll_areas j) ∧
        s'.log = s.log ∧
        ((s.w.scroll_areas i).flags &&& ScrollFlags.HSCROLLBAR_THUMB_PRESSED =
            ScrollFlags.HSCROLLBAR_THUMB_PRESSED →
          s'.w.scroll_areas i = s.w.scroll_areas i)) ∧
    (followTrackHeight c widget (s.w.scroll_areas i).flags = 0 →
      ∃ s', verticalFollow c s widget wi i d = some s' ∧
        s'.w.scroll_areas i = { s.w.scroll_areas i with
          flags := (s.w.scroll_areas i).flags ||| ScrollFlags.VSCROLLBAR_THUMB_PRESSED } ∧
        (∀ j, j ≠ i → s'.w.scroll_areas j = s.w.scroll_areas j) ∧
        s'.log = s.log ∧
        ((s.w.scroll_areas i).flags &&& ScrollFlags.VSCROLLBAR_THUMB_PRESSED =
            ScrollFlags.VSCROLLBAR_THUMB_PRESSED →
          s'.w.scroll_areas i = s.w.scroll_areas i)) := by
  constructor
  · intro h
    refine ⟨_, horizontalFollow_eq c s widget wi i d, ?_⟩
    rw [if_pos h]
    refine ⟨by simp [State.setArea], ?_, rfl, ?_⟩
    · intro j hj; simp [State.setArea, Function.update_noteq hj]
    · intro hset
      simp only [State.setArea, Function.update_same]
      rw [or_eq_self_of_and_eq _ _ hset]
  · intro h
    refine ⟨_, verticalFollow_eq c s widget wi i d, ?_⟩
    rw [if_pos h]
    refine ⟨by simp [State.setArea], ?_, rfl, ?_⟩
    · intro j hj; simp [State.setArea, Function.update_noteq hj]
    · intro hset
      simp only [State.setArea, Function.update_same]
      rw [or_eq_self_of_and_eq _ _ hset]

/-- Instance of `zero_track_follow_sets_only_thumb_flag`: a 22 by 22 widget with
thumb size 10 and no bar visible has usable track length 0 on both axes. -/
theorem zero_track_follow_sets_only_thumb_flag_witness :
    (∃ s', horizontalFollow exampleConstants (mkState ⟨22, 22⟩ ⟨0, 5, 100, 7, 100⟩) ⟨22, 22⟩
        0 0 20 = some s' ∧ s'.w.scroll_areas 0 = ⟨2, 5, 100, 7, 100⟩) ∧
    (∃ s', verticalFollow exampleConstants (mkState ⟨22, 22⟩ ⟨0, 5, 100, 7, 100⟩) ⟨22, 22⟩
        0 0 20 = some s' ∧ s'.w.scroll_areas 0 = ⟨32, 5, 100, 7, 100⟩) :=
  have t := zero_track_follow_sets_only_thumb_flag exampleConstants
    (mkState ⟨22, 22⟩ ⟨0, 5, 100, 7, 100⟩) ⟨22, 22⟩ 0 0 20
  ⟨(t.1 (by decide)).imp fun _ h => ⟨h.1, h.2.1⟩,
    (t.2 (by decide)).imp fun _ h => ⟨h.1, h.2.1⟩⟩

/-- C15 as stated fails: on a 22 by 22 widget (usable track length 0 on both
axes) with no flag set, `horizontalFollow` leaves the scroll area with flag word
2 (`HSCROLLBAR_THUMB_PRESSED`) and `verticalFollow` with flag word 32
(`VSCROLLBAR_THUMB_PRESSED`), so the scroll area is not identical before and
after. -/
theorem zero_track_follow_noop_counterexample :
    usableTrackWidth exampleConstants ⟨22, 22⟩ ⟨0, 5, 100, 7, 100⟩ = 0 ∧
    usableTrackHeight exampleConstants ⟨22, 22⟩ ⟨0, 5, 100, 7, 100⟩ = 0 ∧
    (horizontalFollow exampleConstants (mkState ⟨22, 22⟩ ⟨0, 5, 100, 7, 100⟩) ⟨22, 22⟩
        0 0 20).map (fun s' => s'.w.scroll_areas 0) = some ⟨2, 5, 100, 7, 100⟩ ∧
    (verticalFollow exampleConstants (mkState ⟨22, 22⟩ ⟨0, 5, 100, 7, 100⟩) ⟨22, 22⟩
        0 0 20).map (fun s' => s'.w.scroll_areas 0) = some ⟨32, 5, 100, 7, 100⟩ ∧
    (mkState ⟨22, 22⟩ ⟨0, 5, 100, 7, 100⟩).w.scroll_areas 0 = ⟨0, 5, 100, 7, 100⟩ := by
  decide

/-! ### Frame of the step handlers -/

theorem onlyFlagSet_or (f b : Nat) : onlyFlagSet f (f ||| b) b := by
  constructor
  · apply Nat.eq_of_testBit_eq
    intro k
    rw [Nat.testBit_and, Nat.testBit_or]
    cases f.testBit k <;> cases b.testBit k <;> rfl
  · intro k hk
    rw [Nat.testBit_or, hk, Bool.or_false]

theorem hButtonLeft_other_areas (c : Constants) (s : State) (i wi j : Nat) (hj : j ≠ i) :
    (hButtonLeft c s i wi).w.scroll_areas j = s.w.scroll_areas j := by
  simp [hButtonLeft, State.setArea, updateThumbs, invalidateWidget, State.call,
    Function.update_noteq hj]

theorem hButtonRight_other_areas (c : Constants) (s : State) (i wi j : Nat) (hj : j ≠ i) :
    (hButtonRight c s i wi).w.scroll_areas j = s.w.scroll_areas j := by
  simp [hButtonRight, State.setArea, updateThumbs, invalidateWidget, State.call,
    Function.update_noteq hj]

theorem hTrackLeft_other_areas (c : Constants) (s : State) (i wi j : Nat) (hj : j ≠ i) :
    (hTrackLeft c s i wi).w.scroll_areas j = s.w.scroll_areas j := by
  simp [hTrackLeft, State.setArea, updateThumbs, invalidateWidget, State.call,
    Function.update_noteq hj]

theorem hTrackRight_other_areas (c : Constants) (s : State) (i wi j : Nat) (hj : j ≠ i) :
    (hTrackRight c s i wi).w.scroll_areas j = s.w.scroll_areas j := by
  simp [hTrackRight, State.setArea, updateThumbs, invalidateWidget, State.call,
    Function.update_noteq hj]

theorem vButtonTop_other_areas (c : Constants) (s : State) (i wi j : Nat) (hj : j ≠ i) :
    (vButtonTop c s i wi).w.scroll_areas j = s.w.scroll_areas j := by
  simp [vButtonTop, verticalNudgeUp, State.setArea, updateThumbs, invalidateWidget, State.call,
    Function.update_noteq hj]

theorem vButtonBottom_other_areas (c : Constants) (s : State) (i wi j : Nat) (hj : j ≠ i) :
    (vButtonBottom c s i wi).w.scroll_areas j = s.w.scroll_areas j := by
  simp [vButtonBottom, verticalNudgeDown, State.setArea, updateThumbs, invalidateWidget, State.call,
    Function.update_noteq hj]

theorem vTrackTop_other_areas (c : Constants) (s : State) (i wi j : Nat) (hj : j ≠ i) :
    (vTrackTop c s i wi).w.scroll_areas j = s.w.scroll_areas j := by
  simp [vTrackTop, State.setArea, updateThumbs, invalidateWidget, State.call,
    Function.update_noteq hj]

theorem vTrackBottom_other_areas (c : Constants) (s : State) (i wi j : Nat) (hj : j ≠ i) :
    (vTrackBottom c s i wi).w.scroll_areas j = s.w.scroll_areas j := by
  simp [vTrackBottom, State.setArea, updateThumbs, invalidateWidget, State.call,
    Function.update_noteq hj]

/-- C16: for every window state, each of the four button handlers
(`hButtonLeft`, `hButtonRight`, `vButtonTop`, `vButtonBottom`) sets exactly its
own pressed flag (`HSCROLLBAR_LEFT_PRESSED`, `HSCROLLBAR_RIGHT_PRESSED`,
`VSCROLLBAR_UP_PRESSED`, `VSCROLLBAR_DOWN_PRESSED`) and changes no other flag
bit; each of the four track handlers (`hTrackLeft`, `hTrackRight`, `vTrackTop`,
`vTrackBottom`) leaves the flags unchanged; and all eight leave the content
sizes, the offset of the other axis and every other scroll area unchanged. -/
theorem step_handlers_frame (c : Constants) (s : State) (i wi : Nat) :
    (onlyFlagSet (s.w.scroll_areas i).flags ((hButtonLeft c s i wi).w.scroll_areas i).flags
        ScrollFlags.HSCROLLBAR_LEFT_PRESSED ∧
      horizontalStepFrame s (hButtonLeft c s i wi) i) ∧
    (onlyFlagSet (s.w.scroll_areas i).flags ((hButtonRight c s i wi).w.scroll_areas i).flags
        ScrollFlags.HSCROLLBAR_RIGHT_PRESSED ∧
      horizontalStepFrame s (hButtonRight c s i wi) i) ∧
    (((hTrackLeft c s i wi).w.scroll_areas i).flags = (s.w.scroll_areas i).flags ∧
      horizontalStepFrame s (hTrackLeft c s i wi) i) ∧
    (((hTrackRight c s i wi).w.scroll_areas i).flags = (s.w.scroll_areas i).flags ∧
      horizontalStepFrame s (hTrackRight c s i wi) i) ∧
    (onlyFlagSet (s.w.scroll_areas i).flags ((vButtonTop c s i wi).w.scroll_areas i).flags
        ScrollFlags.VSCROLLBAR_UP_PRESSED ∧
      verticalStepFrame s (vButtonTop c s i wi) i) ∧
    (onlyFlagSet (s.w.scroll_areas i).flags ((vButtonBottom c s i wi).w.scroll_areas i).flags
        ScrollFlags.VSCROLLBAR_DOWN_PRESSED ∧
      verticalStepFrame s (vButtonBottom c s i wi) i) ∧
    (((vTrackTop c s i wi).w.scroll_areas i).flags = (s.w.scroll_areas i).flags ∧
      verticalStepFrame s (vTrackTop c s i wi) i) ∧
    (((vTrackBottom c s i wi).w.scroll_areas i).flags = (s.w.scroll_areas i).flags ∧
      verticalStepFrame s (vTrackBottom c s i wi) i) := by
  refine ⟨?_, ?_, ?_, ?_, ?_, ?_, ?_, ?_⟩
  · refine ⟨?_, ?_, ?_, ?_, fun j hj => hButtonLeft_other_areas c s i wi j hj⟩
    · rw [hButtonLeft_area]; exact onlyFlagSet_or _ _
    all_goals rw [hButtonLeft_area]
  · refine ⟨?_, ?_, ?_, ?_, fun j hj => hButtonRight_other_areas c s i wi j hj⟩
    · rw [hButtonRight_area]; exact onlyFlagSet_or _ _
    all_goals rw [hButtonRight_area]
  · refine ⟨?_, ?_, ?_, ?_, fun j hj => hTrackLeft_other_areas c s i wi j hj⟩
    all_goals rw [hTrackLeft_area]
  · refine ⟨?_, ?_, ?_, ?_, fun j hj => hTrackRight_other_areas c s i wi j hj⟩
    all_goals rw [hTrackRight_area]
  · refine ⟨?_, ?_, ?_, ?_, fun j hj => vButtonTop_other_areas c s i wi j hj⟩
    · rw [vButtonTop_area]; exact onlyFlagSet_or _ _
    all_goals rw [vButtonTop_area]
  · refine ⟨?_, ?_, ?_, ?_, fun j hj => vButtonBottom_other_areas c s i wi j hj⟩
    · rw [vButtonBottom_area]; exact onlyFlagSet_or _ _
    all_goals rw [vButtonBottom_area]
  · refine ⟨?_, ?_, ?_, ?_, fun j hj => vTrackTop_other_areas c s i wi j hj⟩
    all_goals rw [vTrackTop_area]
  · refine ⟨?_, ?_, ?_, ?_, fun j hj => vTrackBottom_other_areas c s i wi j hj⟩
    all_goals rw [vTrackBottom_area]

/-! ### No auto-repeat on tracks -/

/-- C17: no auto-repeat on tracks. For every continue event
(`scrollLeftContinue`) in which the engaged part is one of
`hscrollbar-track-left`, `hscrollbar-track-right`, `vscrollbar-track-top`,
`vscrollbar-track-bottom` and the hit test at the current coordinate returns
that same part, the event returns the state it was given: every scroll area of
the window (offsets and flags) is unchanged, and no call is made. -/
theorem scrollLeftContinue_track_no_repeat (c : Constants) (env : Env) (x y : Int) (s : State)
    (widget : widget_t) (wi : Nat)
    (htrack : s._currentScrollArea = scroll_part.hscrollbar_track_left ∨
      s._currentScrollArea = scroll_part.hscrollbar_track_right ∨
      s._currentScrollArea = scroll_part.vscrollbar_track_top ∨
      s._currentScrollArea = scroll_part.vscrollbar_track_bottom)
    (hsame : (getPart c env s.w widget x y).output_scroll_area = s._currentScrollArea) :
    scrollLeftContinue c env x y s widget wi = some s ∧
    ∀ s', scrollLeftContinue c env x y s widget wi = some s' →
      (∀ j, s'.w.scroll_areas j = s.w.scroll_areas j) ∧ s'.log = s.log := by
  have h : scrollLeftContinue c env x y s widget wi = some s := by
    unfold scrollLeftContinue
    generalize getPart c env s.w widget x y = r at *
    rcases htrack with he | he | he | he <;> simp [he, hsame]
  refine ⟨h, ?_⟩
  intro s' hs'
  rw [h] at hs'
  cases hs'
  exact ⟨fun _ => rfl, rfl⟩

/-- Instance of `scrollLeftContinue_track_no_repeat`: `hscrollbar-track-right` is
engaged and hit again; offset 200 and the empty call list stay as they are. -/
theorem scrollLeftContinue_track_no_repeat_witness :
    scrollLeftContinue exampleConstants
        (exampleEnv ⟨0, 0, scroll_part.hscrollbar_track_right, 0⟩) 50 60
        (mkEngaged ⟨152, 152⟩ ⟨0, 200, 1000, 0, 1000⟩ scroll_part.hscrollbar_track_right 0)
        ⟨152, 152⟩ 0 =
      some (mkEngaged ⟨152, 152⟩ ⟨0, 200, 1000, 0, 1000⟩ scroll_part.hscrollbar_track_right 0) :=
  (scrollLeftContinue_track_no_repeat exampleConstants
    (exampleEnv ⟨0, 0, scroll_part.hscrollbar_track_right, 0⟩) 50 60
    (mkEngaged ⟨152, 152⟩ ⟨0, 200, 1000, 0, 1000⟩ scroll_part.hscrollbar_track_right 0)
    ⟨152, 152⟩ 0 (by decide) (by decide)).1

/-! ### Thumb continuation -/

theorem horizontalFollow_tooltip (c : Constants) (s : State) (widget : widget_t) (wi i : Nat)
    (d : Int) :
    ∃ s', horizontalFollow c s widget wi i d = some s' ∧
      s'.tooltipMouseLocation = s.tooltipMouseLocation := by
  refine ⟨_, horizontalFollow_eq c s widget wi i d, ?_⟩
  split_ifs <;> rfl

theorem verticalFollow_tooltip (c : Constants) (s : State) (widget : widget_t) (wi i : Nat)
    (d : Int) :
    ∃ s', verticalFollow c s widget wi i d = some s' ∧
      s'.tooltipMouseLocation = s.tooltipMouseLocation := by
  refine ⟨_, verticalFollow_eq c s widget wi i d, ?_⟩
  split_ifs <;> rfl

/-- C18 (amended): thumb continuation. For every continue event at cursor
`(x, y)` while the engaged part is `hscrollbar-thumb`, the event is
`horizontalFollow` on the engaged scroll area with delta `x` minus the `x` of the
stored last cursor position (in 16-bit arithmetic); no hit test is consulted
(the result is the same under any collaborators); and afterwards the stored
last cursor position has `x` as its x component and its old y component.
Symmetrically for `vscrollbar-thumb` with `y` and `verticalFollow`: the y
component becomes `y`, the x component is kept. -/
theorem scrollLeftContinue_thumb (c : Constants) (env : Env) (x y : Int) (s : State)
    (widget : widget_t) (wi : Nat) :
    (s._currentScrollArea = scroll_part.hscrollbar_thumb →
      scrollLeftContinue c env x y s widget wi =
        horizontalFollow c
          { s with tooltipMouseLocation := { x := x, y := s.tooltipMouseLocation.y } }
          widget wi (getCurrentScrollIndex c s) (toInt16 (x - s.tooltipMouseLocation.x)) ∧
      (∀ env', scrollLeftContinue c env' x y s widget wi =
        scrollLeftContinue c env x y s widget wi) ∧
      ∃ s', scrollLeftContinue c env x y s widget wi = some s' ∧
        s'.tooltipMouseLocation = { x := x, y := s.tooltipMouseLocation.y }) ∧
    (s._currentScrollArea = scroll_part.vscrollbar_thumb →
      scrollLeftContinue c env x y s widget wi =
        verticalFollow c
          { s with tooltipMouseLocation := { x := s.tooltipMouseLocation.x, y := y } }
          widget wi (getCurrentScrollIndex c s) (toInt16 (y - s.tooltipMouseLocation.y)) ∧
      (∀ env', scrollLeftContinue c env' x y s widget wi =
        scrollLeftContinue c env x y s widget wi) ∧
      ∃ s', scrollLeftContinue c env x y s widget wi = some s' ∧
        s'.tooltipMouseLocation = { x := s.tooltipMouseLocation.x, y := y }) := by
  constructor
  · intro he
    have hall : ∀ e : Env, scrollLeftContinue c e x y s widget wi =
        horizontalFollow c
          { s with tooltipMouseLocation := { x := x, y := s.tooltipMouseLocation.y } }
          widget wi (getCurrentScrollIndex c s) (toInt16 (x - s.tooltipMouseLocation.x)) := by
      intro e
      unfold scrollLeftContinue
      simp only [he, if_true]
    refine ⟨hall env, fun env' => (hall env').trans (hall env).symm, ?_⟩
    rw [hall env]
    exact horizontalFollow_tooltip c _ widget wi _ _
  · intro he
    have hall : ∀ e : Env, scrollLeftContinue c e x y s widget wi =
        verticalFollow c
          { s with tooltipMouseLocation := { x := s.tooltipMouseLocation.x, y := y } }
          widget wi (getCurrentScrollIndex c s) (toInt16 (y - s.tooltipMouseLocation.y)) := by
      intro e
      unfold scrollLeftContinue
      simp only [he, if_true]
      rw [if_neg (by decide)]
    refine ⟨hall env, fun env' => (hall env').trans (hall env).symm, ?_⟩
    rw [hall env]
    exact verticalFollow_tooltip c _ widget wi _ _


/-- Instance of `scrollLeftContinue_thumb`: the horizontal thumb is engaged, the
last cursor position is (0, 0) and the event arrives at (20, 7) on a widget of
width 122 over content width 1000: the event is `horizontalFollow` with
delta 20 and the offset moves from 300 to 500. -/
theorem scrollLeftContinue_thumb_witness :
    scrollLeftContinue exampleConstants (exampleEnv ⟨0, 0, scroll_part.view, 0⟩) 20 7
        (mkEngaged ⟨122, 122⟩ ⟨1, 300, 1000, 0, 1000⟩ scroll_part.hscrollbar_thumb 0)
        ⟨122, 122⟩ 0 =
      horizontalFollow exampleConstants
        { mkEngaged ⟨122, 122⟩ ⟨1, 300, 1000, 0, 1000⟩ scroll_part.hscrollbar_thumb 0 with
          tooltipMouseLocation := { x := 20, y := 0 } }
        ⟨122, 122⟩ 0 0 20 ∧
    (scrollLeftContinue exampleConstants (exampleEnv ⟨0, 0, scroll_part.view, 0⟩) 20 7
        (mkEngaged ⟨122, 122⟩ ⟨1, 300, 1000, 0, 1000⟩ scroll_part.hscrollbar_thumb 0)
        ⟨122, 122⟩ 0).map (fun s' => (s'.w.scroll_areas 0).contentOffsetX) = some 500 :=
  ⟨((scrollLeftContinue_thumb exampleConstants (exampleEnv ⟨0, 0, scroll_part.view, 0⟩) 20 7
      (mkEngaged ⟨122, 122⟩ ⟨1, 300, 1000, 0, 1000⟩ scroll_part.hscrollbar_thumb 0)
      ⟨122, 122⟩ 0).1 rfl).1, by decide⟩

/-- C18 as stated fails: with the horizontal thumb engaged and the last cursor
position (0, 0), a continue event at (20, 7) leaves the stored position at
(20, 0), not at the cursor position (20, 7); with the vertical thumb engaged it
leaves (0, 7). -/
theorem scrollLeftContinue_thumb_position_counterexample :
    (scrollLeftContinue exampleConstants (exampleEnv ⟨0, 0, scroll_part.view, 0⟩) 20 7
        (mkEngaged ⟨122, 122⟩ ⟨1, 300, 1000, 0, 1000⟩ scroll_part.hscrollbar_thumb 0)
        ⟨122, 122⟩ 0).map (fun s' => s'.tooltipMouseLocation) = some ⟨20, 0⟩ ∧
    (scrollLeftContinue exampleConstants (exampleEnv ⟨0, 0, scroll_part.view, 0⟩) 20 7
        (mkEngaged ⟨122, 122⟩ ⟨16, 0, 1000, 300, 1000⟩ scroll_part.vscrollbar_thumb 0)
        ⟨122, 122⟩ 0).map (fun s' => s'.tooltipMouseLocation) = some ⟨0, 7⟩ := by
  decide

/-! ### Drag-follow against follow -/

/-- C19: `horizontalDragFollow` refines `horizontalFollow`. For every widget,
delta and scroll area with `HSCROLLBAR_VISIBLE` set, both functions return;
`horizontalDragFollow` leaves the flags of the scroll area as they were, and the
state `horizontalFollow` returns is the one `horizontalDragFollow` returns with
`HSCROLLBAR_THUMB_PRESSED` additionally set in that scroll area (so the stored
`contentOffsetX`, every other field, every other scroll area and the calls made
are equal). When `HSCROLLBAR_VISIBLE` is clear, `horizontalDragFollow` returns
the state unchanged. The same holds between `verticalDragFollow` and
`verticalFollow` with `VSCROLLBAR_VISIBLE` and `VSCROLLBAR_THUMB_PRESSED`. -/
theorem dragFollow_refines_follow (c : Constants) (s : State) (widget : widget_t) (wi i : Nat)
    (d : Int) :
    ((s.w.scroll_areas i).flags &&& ScrollFlags.HSCROLLBAR_VISIBLE ≠ 0 →
      ∃ s1 s2, horizontalFollow c s widget wi i d = some s1 ∧
        horizontalDragFollow c s widget wi i d = some s2 ∧
        (s2.w.scroll_areas i).flags = (s.w.scroll_areas i).flags ∧
        s1 = s2.setArea i { s2.w.scroll_areas i with
          flags := (s2.w.scroll_areas i).flags ||| ScrollFlags.HSCROLLBAR_THUMB_PRESSED }) ∧
    ((s.w.scroll_areas i).flags &&& ScrollFlags.HSCROLLBAR_VISIBLE = 0 →
      horizontalDragFollow c s widget wi i d = some s) ∧
    ((s.w.scroll_areas i).flags &&& ScrollFlags.VSCROLLBAR_VISIBLE ≠ 0 →
      ∃ s1 s2, verticalFollow c s widget wi i d = some s1 ∧
        verticalDragFollow c s widget wi i d = some s2 ∧
        (s2.w.scroll_areas i).flags = (s.w.scroll_areas i).flags ∧
        s1 = s2.setArea i { s2.w.scroll_areas i with
          flags := (s2.w.scroll_areas i).flags ||| ScrollFlags.VSCROLLBAR_THUMB_PRESSED }) ∧
    ((s.w.scroll_areas i).flags &&& ScrollFlags.VSCROLLBAR_VISIBLE = 0 →
      verticalDragFollow c s widget wi i d = some s) := by
  refine ⟨?_, ?_, ?_, ?_⟩
  · intro hvis
    refine ⟨_, _, horizontalFollow_eq c s widget wi i d,
      horizontalDragFollow_eq c s widget wi i d, ?_, ?_⟩
    · rw [if_neg hvis]
      split_ifs <;> simp [State.setArea, updateThumbs, invalidateWidget, State.call]
    · rw [if_neg hvis]
      split_ifs <;> simp [State.setArea, updateThumbs, invalidateWidget, State.call]
  · intro hvis
    rw [horizontalDragFollow_eq, if_pos hvis]
  · intro hvis
    refine ⟨_, _, verticalFollow_eq c s widget wi i d,
      verticalDragFollow_eq c s widget wi i d, ?_, ?_⟩
    · rw [if_neg hvis]
      split_ifs <;> simp [State.setArea, updateThumbs, invalidateWidget, State.call]
    · rw [if_neg hvis]
      split_ifs <;> simp [State.setArea, updateThumbs, invalidateWidget, State.call]
  · intro hvis
    rw [verticalDragFollow_eq, if_pos hvis]

/-- Instance of `dragFollow_refines_follow`: both bars visible on a widget of
extent 133 (usable track length 100), content extent 1000, offsets 300 and
delta 20; both horizontal handlers store 500, and only `horizontalFollow` sets
the thumb-pressed flag. -/
theorem dragFollow_refines_follow_witness :
    (∃ s1 s2, horizontalFollow exampleConstants
          (mkState ⟨133, 133⟩ ⟨17, 300, 1000, 300, 1000⟩) ⟨133, 133⟩ 0 0 20 = some s1 ∧
        horizontalDragFollow exampleConstants
          (mkState ⟨133, 133⟩ ⟨17, 300, 1000, 300, 1000⟩) ⟨133, 133⟩ 0 0 20 = some s2 ∧
        (s2.w.scroll_areas 0).flags =
          ((mkState ⟨133, 133⟩ ⟨17, 300, 1000, 300, 1000⟩).w.scroll_areas 0).flags ∧
        s1 = s2.setArea 0 { s2.w.scroll_areas 0 with
          flags := (s2.w.scroll_areas 0).flags ||| ScrollFlags.HSCROLLBAR_THUMB_PRESSED }) ∧
    (horizontalFollow exampleConstants
        (mkState ⟨133, 133⟩ ⟨17, 300, 1000, 300, 1000⟩) ⟨133, 133⟩ 0 0 20).map
      (fun s' => s'.w.scroll_areas 0) = some ⟨19, 500, 1000, 300, 1000⟩ ∧
    (horizontalDragFollow exampleConstants
        (mkState ⟨133, 133⟩ ⟨17, 300, 1000, 300, 1000⟩) ⟨133, 133⟩ 0 0 20).map
      (fun s' => s'.w.scroll_areas 0) = some ⟨17, 500, 1000, 300, 1000⟩ :=
  ⟨(dragFollow_refines_follow exampleConstants
      (mkState ⟨133, 133⟩ ⟨17, 300, 1000, 300, 1000⟩) ⟨133, 133⟩ 0 0 20).1 (by decide),
    by decide, by decide⟩

/-! ### Direction of a drag -/

theorem followTrackWidth_nonneg (c : Constants) (widget : widget_t) (flags : Nat) :
    0 ≤ followTrackWidth c widget flags := by
  unfold followTrackWidth toUInt16
  split_ifs <;> omega

theorem followTrackHeight_nonneg (c : Constants) (widget : widget_t) (flags : Nat) :
    0 ≤ followTrackHeight c widget flags := by
  unfold followTrackHeight toUInt16
  split_ifs <;> omega

theorem tdiv_mul_sign (d cw t : Int) (hcw : 0 ≤ cw) (ht : 0 ≤ t) :
    (0 ≤ d → 0 ≤ Int.tdiv (d * cw) t) ∧ (d ≤ 0 → Int.tdiv (d * cw) t ≤ 0) := by
  constructor
  · intro hd
    exact Int.tdiv_nonneg (Int.mul_nonneg hd hcw) ht
  · intro hd
    have h1 : 0 ≤ Int.tdiv (-(d * cw)) t :=
      Int.tdiv_nonneg (by have := Int.mul_nonneg (by omega : 0 ≤ -d) hcw; linarith) ht
    rw [Int.neg_tdiv] at h1
    omega

theorem followOffset_direction (o q cwW : Int) (hfit : isInt16 (o + q)) (ho : 0 ≤ o) :
    (0 ≤ q → cwW ≤ 32767 → o ≤ max 0 cwW →
      o ≤ clamp (toInt16 (o + q)) 0 (max (toInt16 cwW) 0)) ∧
    (q ≤ 0 → clamp (toInt16 (o + q)) 0 (max (toInt16 cwW) 0) ≤ o) := by
  rw [toInt16_of_isInt16 _ hfit]
  unfold isInt16 at hfit
  unfold clamp toInt16
  simp only [max_def]
  constructor
  · intro hq hc hr
    split_ifs at * <;> omega
  · intro hq
    split_ifs <;> omega


theorem horizontalFollow_offsetX (c : Constants) (s : State) (widget : widget_t) (wi i : Nat)
    (d : Int) :
    ∃ s', horizontalFollow c s widget wi i d = some s' ∧
      (s'.w.scroll_areas i).contentOffsetX =
        if followTrackWidth c widget (s.w.scroll_areas i).flags = 0 then
          (s.w.scroll_areas i).contentOffsetX
        else followOffsetX c widget (s.w.scroll_areas i) d := by
  refine ⟨_, horizontalFollow_eq c s widget wi i d, ?_⟩
  split_ifs <;> simp [State.setArea, updateThumbs, invalidateWidget, State.call]

theorem verticalFollow_offsetY (c : Constants) (s : State) (widget : widget_t) (wi i : Nat)
    (d : Int) :
    ∃ s', verticalFollow c s widget wi i d = some s' ∧
      (s'.w.scroll_areas i).contentOffsetY =
        if followTrackHeight c widget (s.w.scroll_areas i).flags = 0 then
          (s.w.scroll_areas i).contentOffsetY
        else followOffsetY c widget (s.w.scroll_areas i) d := by
  refine ⟨_, verticalFollow_eq c s widget wi i d, ?_⟩
  split_ifs <;> simp [State.setArea, updateThumbs, invalidateWidget, State.call]

/-- C20 (amended): drag direction. For every widget, every scroll area with
non-negative content width and in-range `contentOffsetX`, and every delta for
which `old offset + delta * contentWidth / T` fits a signed 16-bit integer, `T`
being the handler's 16-bit (truncated) usable track length: `horizontalFollow`
never increases `contentOffsetX` when `delta <= 0`, and never decreases it when
`delta >= 0` provided `contentWidth - visibleTrackWidth <= 32767` (so `delta = 0`
then leaves it unchanged); symmetrically for `verticalFollow` and
`contentOffsetY`. -/
theorem follow_respects_direction (c : Constants) (s : State) (widget : widget_t) (wi i : Nat)
    (d : Int) :
    (0 ≤ (s.w.scroll_areas i).contentWidth →
      isInt16 ((s.w.scroll_areas i).contentOffsetX +
        Int.tdiv (d * (s.w.scroll_areas i).contentWidth)
          (followTrackWidth c widget (s.w.scroll_areas i).flags)) →
      offsetXInRange c widget (s.w.scroll_areas i) →
      ∃ s', horizontalFollow c s widget wi i d = some s' ∧
        (0 ≤ d →
          (s.w.scroll_areas i).contentWidth - visibleTrackWidth c widget (s.w.scroll_areas i) ≤
            32767 →
          (s.w.scroll_areas i).contentOffsetX ≤ (s'.w.scroll_areas i).contentOffsetX) ∧
        (d ≤ 0 →
          (s'.w.scroll_areas i).contentOffsetX ≤ (s.w.scroll_areas i).contentOffsetX)) ∧
    (0 ≤ (s.w.scroll_areas i).contentHeight →
      isInt16 ((s.w.scroll_areas i).contentOffsetY +
        Int.tdiv (d * (s.w.scroll_areas i).contentHeight)
          (followTrackHeight c widget (s.w.scroll_areas i).flags)) →
      offsetYInRange c widget (s.w.scroll_areas i) →
      ∃ s', verticalFollow c s widget wi i d = some s' ∧
        (0 ≤ d →
          (s.w.scroll_areas i).contentHeight -
              visibleTrackHeight c widget (s.w.scroll_areas i) ≤ 32767 →
          (s.w.scroll_areas i).contentOffsetY ≤ (s'.w.scroll_areas i).contentOffsetY) ∧
        (d ≤ 0 →
          (s'.w.scroll_areas i).contentOffsetY ≤ (s.w.scroll_areas i).contentOffsetY)) := by
  constructor
  · intro hcw hfit hr
    obtain ⟨s', hs', hoff⟩ := horizontalFollow_offsetX c s widget wi i d
    refine ⟨s', hs', ?_⟩
    rw [hoff]
    by_cases hz : followTrackWidth c widget (s.w.scroll_areas i).flags = 0
    · rw [if_pos hz]
      exact ⟨fun _ _ => le_refl _, fun _ => le_refl _⟩
    · rw [if_neg hz]
      have hsign := tdiv_mul_sign d _ _ hcw (followTrackWidth_nonneg c widget
        (s.w.scroll_areas i).flags)
      have hdir := followOffset_direction (s.w.scroll_areas i).contentOffsetX _
        ((s.w.scroll_areas i).contentWidth - visibleTrackWidth c widget (s.w.scroll_areas i))
        hfit hr.1
      unfold followOffsetX
      exact ⟨fun hd hc => hdir.1 (hsign.1 hd) hc hr.2, fun hd => hdir.2 (hsign.2 hd)⟩
  · intro hcw hfit hr
    obtain ⟨s', hs', hoff⟩ := verticalFollow_offsetY c s widget wi i d
    refine ⟨s', hs', ?_⟩
    rw [hoff]
    by_cases hz : followTrackHeight c widget (s.w.scroll_areas i).flags = 0
    · rw [if_pos hz]
      exact ⟨fun _ _ => le_refl _, fun _ => le_refl _⟩
    · rw [if_neg hz]
      have hsign := tdiv_mul_sign d _ _ hcw (followTrackHeight_nonneg c widget
        (s.w.scroll_areas i).flags)
      have hdir := followOffset_direction (s.w.scroll_areas i).contentOffsetY _
        ((s.w.scroll_areas i).contentHeight - visibleTrackHeight c widget (s.w.scroll_areas i))
        hfit hr.1
      unfold followOffsetY
      exact ⟨fun hd hc => hdir.1 (hsign.1 hd) hc hr.2, fun hd => hdir.2 (hsign.2 hd)⟩

/-- Instance of `follow_respects_direction`: widget extent 122 (track length
100), content extent 1000, offsets 300; delta 20 moves the offsets up to 500 and
delta -20 down to 100. -/
theorem follow_respects_direction_witness :
    (∃ s', horizontalFollow exampleConstants (mkState ⟨122, 122⟩ ⟨0, 300, 1000, 300, 1000⟩)
        ⟨122, 122⟩ 0 0 20 = some s' ∧ 300 ≤ (s'.w.scroll_areas 0).contentOffsetX) ∧
    (∃ s', verticalFollow exampleConstants (mkState ⟨122, 122⟩ ⟨0, 300, 1000, 300, 1000⟩)
        ⟨122, 122⟩ 0 0 (-20) = some s' ∧ (s'.w.scroll_areas 0).contentOffsetY ≤ 300) ∧
    (horizontalFollow exampleConstants (mkState ⟨122, 122⟩ ⟨0, 300, 1000, 300, 1000⟩)
        ⟨122, 122⟩ 0 0 20).map (fun s' => (s'.w.scroll_areas 0).contentOffsetX) = some 500 ∧
    (verticalFollow exampleConstants (mkState ⟨122, 122⟩ ⟨0, 300, 1000, 300, 1000⟩)
        ⟨122, 122⟩ 0 0 (-20)).map (fun s' => (s'.w.scroll_areas 0).contentOffsetY) =
      some 100 :=
  ⟨((follow_respects_direction exampleConstants (mkState ⟨122, 122⟩ ⟨0, 300, 1000, 300, 1000⟩)
      ⟨122, 122⟩ 0 0 20).1 (by decide) (by decide) (by decide)).imp
      fun _ h => ⟨h.1, h.2.1 (by decide) (by decide)⟩,
    ((follow_respects_direction exampleConstants (mkState ⟨122, 122⟩ ⟨0, 300, 1000, 300, 1000⟩)
      ⟨122, 122⟩ 0 0 (-20)).2 (by decide) (by decide) (by decide)).imp
      fun _ h => ⟨h.1, h.2.2 (by decide)⟩,
    by decide, by decide⟩

/-- C20 as stated fails when the new offset does not fit 16 bits: on a widget of
width 122 (track length 100) with content width 30000 and the in-range offset
20000, a delta of +50 gives the content delta 15000; `20000 + 15000` wraps to a
negative `int16_t` and the clamp stores 0, so a drag to the right moves the
offset from 20000 down to 0. -/
theorem follow_direction_counterexample :
    offsetXInRange exampleConstants ⟨122, 122⟩ ⟨0, 20000, 30000, 0, 0⟩ ∧
    followTrackWidth exampleConstants ⟨122, 122⟩ 0 = 100 ∧
    Int.tdiv (50 * 30000) 100 = 15000 ∧
    toInt16 (20000 + 15000) = -30536 ∧
    (horizontalFollow exampleConstants (mkState ⟨122, 122⟩ ⟨0, 20000, 30000, 0, 0⟩)
        ⟨122, 122⟩ 0 0 50).map (fun s' => (s'.w.scroll_areas 0).contentOffsetX) = some 0 := by
  decide

/-! ### The stored scroll-area index -/

theorem index_round_trip (sz i : Nat) (hsz : 0 < sz) (hi : i * sz < 4294967296) :
    toUInt32 (i * sz) / sz = i := by
  unfold toUInt32
  rw [Nat.mod_eq_of_lt hi, Nat.mul_div_cancel _ hsz]

/-- C21: the session's scroll-area index survives its storage as a 32-bit byte
offset. For every index `i` with `i * sizeof(scroll_area_t) < 2^32` (the size
being positive), `getCurrentScrollIndex` after `setCurrentScrollIndex(i)`
returns `i`; a press (`scrollLeftBegin`) whose hit test yields index `i` leaves a
session whose index reads back as `i`; and on the recorded session a release
(`clearPressedButtons`, window found) clears the flags of scroll area `i`, and a
thumb continuation hands scroll area `i` to `horizontalFollow`, respectively
`verticalFollow`. -/
theorem scroll_index_survives_storage (c : Constants) (s : State) (i : Nat)
    (hsz : 0 < c.sizeof_scroll_area_t) (hi : i * c.sizeof_scroll_area_t < 4294967296) :
    getCurrentScrollIndex c (setCurrentScrollIndex c s i) = i ∧
    (∀ (env : Env) (x y : Int) (widget : widget_t) (wi : Nat),
      (getPart c env s.w widget x y).scrollIndex = i →
      getCurrentScrollIndex c (scrollLeftBegin c env x y s widget wi) = i) ∧
    (∀ (env : Env) (type number wi : Nat), env.find type number = true →
      clearPressedButtons c env (setCurrentScrollIndex c s i) type number wi =
        invalidateWidget
          ((setCurrentScrollIndex c s i).setArea i
            { s.w.scroll_areas i with
              flags := clearMask16 (s.w.scroll_areas i).flags
                (verticalFlags ||| horizontalFlags) })
          type number wi) ∧
    (∀ (env : Env) (x y : Int) (widget : widget_t) (wi : Nat),
      s._currentScrollArea = scroll_part.hscrollbar_thumb →
      scrollLeftContinue c env x y (setCurrentScrollIndex c s i) widget wi =
        horizontalFollow c
          { setCurrentScrollIndex c s i with
            tooltipMouseLocation := { x := x, y := s.tooltipMouseLocation.y } }
          widget wi i (toInt16 (x - s.tooltipMouseLocation.x))) ∧
    (∀ (env : Env) (x y : Int) (widget : widget_t) (wi : Nat),
      s._currentScrollArea = scroll_part.vscrollbar_thumb →
      scrollLeftContinue c env x y (setCurrentScrollIndex c s i) widget wi =
        verticalFollow c
          { setCurrentScrollIndex c s i with
            tooltipMouseLocation := { x := s.tooltipMouseLocation.x, y := y } }
          widget wi i (toInt16 (y - s.tooltipMouseLocation.y))) := by
  have hget : getCurrentScrollIndex c (setCurrentScrollIndex c s i) = i :=
    index_round_trip _ _ hsz hi
  refine ⟨hget, ?_, ?_, ?_, ?_⟩
  · intro env x y widget wi hidx
    unfold getCurrentScrollIndex
    rw [(scrollLeftBegin_session c env x y s widget wi).2, hidx]
    exact index_round_trip _ _ hsz hi
  · intro env type number wi hfind
    rw [clearPressedButtons_found c env _ type number wi hfind, hget]
    rfl
  · intro env x y widget wi he
    have he' : (setCurrentScrollIndex c s i)._currentScrollArea =
        scroll_part.hscrollbar_thumb := he
    unfold scrollLeftContinue
    simp only [he', if_true, hget]
    rfl
  · intro env x y widget wi he
    have he' : (setCurrentScrollIndex c s i)._currentScrollArea =
        scroll_part.vscrollbar_thumb := he
    unfold scrollLeftContinue
    simp only [he', if_true, hget]
    rw [if_neg (by decide)]
    rfl

/-- Instance of `scroll_index_survives_storage`: index 1 with scroll areas of 18
bytes is stored as byte offset 18 and read back as 1. -/
theorem scroll_index_survives_storage_witness :
    (setCurrentScrollIndex exampleConstants (mkState ⟨200, 200⟩ ⟨0, 0, 1000, 0, 1000⟩)
      1)._currentScrollOffset = 18 ∧
    getCurrentScrollIndex exampleConstants
      (setCurrentScrollIndex exampleConstants (mkState ⟨200, 200⟩ ⟨0, 0, 1000, 0, 1000⟩) 1) = 1 :=
  ⟨by decide, (scroll_index_survives_storage exampleConstants
    (mkState ⟨200, 200⟩ ⟨0, 0, 1000, 0, 1000⟩) 1 (by decide) (by decide)).1⟩

end OpenLoco.Ui.ScrollView
